import Mathlib

set_option maxRecDepth 100000
set_option maxHeartbeats 4000000

/-!
Verification of the payload-transform registry of the repository
(`scripts/format/transforms.py` and its facade `scripts/changing_the_format.py`).

The Python code is shallowly embedded as follows.

* A transform is a function `String → Except PyErr String`: the `Except.error`
  branch models a Python exception escaping the function, and `Except.ok`
  models a normal return.
* Byte strings (`bytes`) are `List Nat`, each element a byte value.
* The registry `TRANSFORMS` is an association list built exactly in the order
  of the Python module: the literal dict, then the generated
  encoding-representation family, then two percent helpers, then the
  `double_url_ix` family, then the chain combinator pass.  Python dict
  assignment is modelled by `dictInsert` (replace in place if the key exists,
  append otherwise), and dict lookup by `List.lookup` (keys stay unique).
* Python standard-library functions whose output bytes are irrelevant to every
  claim (the compressors, quopri, punycode, the unicode-escape codec, the
  utf-7 codec and random.shuffle) are fields of a `PyPrims` parameter; every
  theorem is proved for all instantiations of that parameter.  Standard
  library functions whose exact behaviour the claims depend on (utf-8, the
  single-byte and utf-16 codecs, base64/base32/base85, binascii.hexlify,
  urllib.parse.quote and urllib.parse.unquote) are embedded concretely.
-/

/-- Errors a Python call can surface: the public lookup failure of the facade
(the `ValueError` raised for an unknown transform name, the `UnknownTransform`
of the specification) and any exception raised inside the logic of a transform
(the `TransformFailure` class of the specification). -/
inductive PyErr where
  | unknownTransform
  | transformFailure
deriving DecidableEq

/-- A registered transform: text in, text out, or an escaping exception. -/
abbrev Transform := String → Except PyErr String

/-- Model of a Python `try: return <r> except Exception: return s` block. -/
def pyTry (s : String) (r : Except PyErr String) : Except PyErr String :=
  match r with
  | Except.ok t => Except.ok t
  | Except.error _ => Except.ok s

/-- Model of `bytes.decode("ascii")`: fails on a byte outside 0..127. -/
def decodeAscii (bs : List Nat) : Except PyErr String :=
  if bs.all (fun b => b < 128) then Except.ok (String.mk (bs.map Char.ofNat))
  else Except.error PyErr.transformFailure

/-- Replace every occurrence of the character c by the string r
(model of Python str.replace with a one-character pattern). -/
def replaceChar (s : String) (c : Char) (r : String) : String :=
  String.mk (s.data.flatMap (fun x => if x = c then r.data else [x]))

/-- Model of Python str.rstrip with a one-character argument. -/
def rstripChar (s : String) (c : Char) : String :=
  String.mk ((s.data.reverse.dropWhile (fun x => x = c)).reverse)

/-- Uppercase an ASCII letter; other characters are unchanged. -/
def asciiUpperChar (c : Char) : Char :=
  if 97 ≤ c.toNat ∧ c.toNat ≤ 122 then Char.ofNat (c.toNat - 32) else c

/-- Lowercase an ASCII letter; other characters are unchanged. -/
def asciiLowerChar (c : Char) : Char :=
  if 65 ≤ c.toNat ∧ c.toNat ≤ 90 then Char.ofNat (c.toNat + 32) else c

/-- Model of str.upper on the ASCII-only strings it is applied to here. -/
def asciiUpper (s : String) : String := String.mk (s.data.map asciiUpperChar)

/-- Model of str.lower on the ASCII-only strings it is applied to here. -/
def asciiLower (s : String) : String := String.mk (s.data.map asciiLowerChar)

/-! ## UTF-8 -/

/-- The UTF-8 encoding of one unicode scalar value. -/
def utf8EncodeNat (v : Nat) : List Nat :=
  if v < 128 then [v]
  else if v < 2048 then [192 + v / 64, 128 + v % 64]
  else if v < 65536 then [224 + v / 4096, 128 + v / 64 % 64, 128 + v % 64]
  else [240 + v / 262144, 128 + v / 4096 % 64, 128 + v / 64 % 64, 128 + v % 64]

/-- Model of str.encode("utf-8"): the UTF-8 bytes of the string.  (The only
failure mode of the Python call, a lone surrogate, is unrepresentable in a
Lean `Char`, so on the embeddable domain the call is total.) -/
def utf8Encode (s : String) : List Nat := s.data.flatMap (fun c => utf8EncodeNat c.toNat)

/-- The replacement character U+FFFD used by decoding with errors=replace. -/
def replChar : Char := Char.ofNat 65533

/-- Allowed range of the second byte of a multi-byte UTF-8 sequence, given the
lead byte (the restrictions that exclude overlong forms and surrogates). -/
def utf8Cont2Range (b : Nat) : Nat × Nat :=
  if b = 224 then (160, 191)
  else if b = 237 then (128, 159)
  else if b = 240 then (144, 191)
  else if b = 244 then (128, 143)
  else (128, 191)

/-- Decoder for bytes.decode("utf-8", errors="replace"): valid sequences
decode to their scalar value, and each maximal prefix of a valid sequence that
cannot be completed yields one replacement character.  (The second, third and
fourth bytes are read with headD 256; the default 256 is outside every
continuation range, so a too-short list takes the same branch as an invalid
continuation byte.) -/
def utf8DecodeAux : List Nat → List Char
  | [] => []
  | b :: bs =>
    if b < 128 then Char.ofNat b :: utf8DecodeAux bs
    else if 194 ≤ b ∧ b ≤ 223 then
      if 128 ≤ bs.headD 256 ∧ bs.headD 256 ≤ 191 then
        Char.ofNat ((b - 192) * 64 + (bs.headD 256 - 128)) :: utf8DecodeAux bs.tail
      else if bs = [] then [replChar]
      else replChar :: utf8DecodeAux bs
    else if 224 ≤ b ∧ b ≤ 239 then
      if (utf8Cont2Range b).1 ≤ bs.headD 256 ∧ bs.headD 256 ≤ (utf8Cont2Range b).2 then
        if 128 ≤ bs.tail.headD 256 ∧ bs.tail.headD 256 ≤ 191 then
          Char.ofNat ((b - 224) * 4096 + (bs.headD 256 - 128) * 64 + (bs.tail.headD 256 - 128))
            :: utf8DecodeAux bs.tail.tail
        else if bs.tail = [] then [replChar]
        else replChar :: utf8DecodeAux bs.tail
      else if bs = [] then [replChar]
      else replChar :: utf8DecodeAux bs
    else if 240 ≤ b ∧ b ≤ 244 then
      if (utf8Cont2Range b).1 ≤ bs.headD 256 ∧ bs.headD 256 ≤ (utf8Cont2Range b).2 then
        if 128 ≤ bs.tail.headD 256 ∧ bs.tail.headD 256 ≤ 191 then
          if 128 ≤ bs.tail.tail.headD 256 ∧ bs.tail.tail.headD 256 ≤ 191 then
            Char.ofNat ((b - 240) * 262144 + (bs.headD 256 - 128) * 4096
                + (bs.tail.headD 256 - 128) * 64 + (bs.tail.tail.headD 256 - 128))
              :: utf8DecodeAux bs.tail.tail.tail
          else if bs.tail.tail = [] then [replChar]
          else replChar :: utf8DecodeAux bs.tail.tail
        else if bs.tail = [] then [replChar]
        else replChar :: utf8DecodeAux bs.tail
      else if bs = [] then [replChar]
      else replChar :: utf8DecodeAux bs
    else replChar :: utf8DecodeAux bs
termination_by l => l.length
decreasing_by all_goals simp [List.length_tail] <;> omega

/-- Model of bytes.decode("utf-8", errors="replace"). -/
def utf8DecodeReplace (bs : List Nat) : String := String.mk (utf8DecodeAux bs)

/-! ## Hexadecimal and percent helpers -/

/-- Byte value of the lowercase hexadecimal digit for n < 16. -/
def hexLowerDigit (n : Nat) : Nat := if n < 10 then 48 + n else 87 + n

/-- Byte value of the uppercase hexadecimal digit for n < 16. -/
def hexUpperDigit (n : Nat) : Nat := if n < 10 then 48 + n else 55 + n

/-- Model of binascii.hexlify: two lowercase hex digits per byte (as bytes). -/
def hexlifyBytes (bs : List Nat) : List Nat :=
  bs.flatMap (fun b => [hexLowerDigit (b / 16), hexLowerDigit (b % 16)])

/-- The two lowercase hex digits of one byte, as a string (format 02x). -/
def hex2Lower (b : Nat) : String :=
  String.mk [Char.ofNat (hexLowerDigit (b / 16)), Char.ofNat (hexLowerDigit (b % 16))]

/-- Hexadecimal digits of n, lowercase, no padding (format x). -/
def natToHexLower (n : Nat) : String := String.mk (Nat.toDigits 16 n)

/-- Hexadecimal digits of n, uppercase, no padding (format X). -/
def natToHexUpper (n : Nat) : String := String.mk ((Nat.toDigits 16 n).map asciiUpperChar)

/-- Zero-pad a numeral string on the left to width 4 (format 04X). -/
def padLeft4 (s : String) : String :=
  if s.length < 4 then String.mk (List.replicate (4 - s.length) '0') ++ s else s

/-! ## Base64, Base32, Base85 -/

/-- The standard base64 alphabet. -/
def b64Alphabet : List Char :=
  "ABCDEFGHIJKLMNOPQRSTUVWXYZabcdefghijklmnopqrstuvwxyz0123456789+/".data

/-- Byte value of the base64 alphabet character with index n < 64. -/
def b64At (n : Nat) : Nat := (b64Alphabet.getD n 'A').toNat

/-- Model of base64.b64encode: standard base64 with padding, as ASCII bytes. -/
def b64EncodeBytes : List Nat → List Nat
  | [] => []
  | [b0] => [b64At (b0 / 4), b64At (b0 % 4 * 16), 61, 61]
  | [b0, b1] => [b64At (b0 / 4), b64At (b0 % 4 * 16 + b1 / 16), b64At (b1 % 16 * 4), 61]
  | b0 :: b1 :: b2 :: rest =>
    b64At (b0 / 4) :: b64At (b0 % 4 * 16 + b1 / 16) :: b64At (b1 % 16 * 4 + b2 / 64)
      :: b64At (b2 % 64) :: b64EncodeBytes rest

/-- The base32 alphabet. -/
def b32Alphabet : List Char := "ABCDEFGHIJKLMNOPQRSTUVWXYZ234567".data

/-- Byte value of the base32 alphabet character with index n < 32. -/
def b32At (n : Nat) : Nat := (b32Alphabet.getD n 'A').toNat

/-- The eight 5-bit groups of a 40-bit quantum made of five bytes. -/
def b32Groups (b0 b1 b2 b3 b4 : Nat) : List Nat :=
  let w := (((b0 * 256 + b1) * 256 + b2) * 256 + b3) * 256 + b4
  [w / 2 ^ 35 % 32, w / 2 ^ 30 % 32, w / 2 ^ 25 % 32, w / 2 ^ 20 % 32,
   w / 2 ^ 15 % 32, w / 2 ^ 10 % 32, w / 2 ^ 5 % 32, w % 32]

/-- Model of base64.b32encode: RFC 4648 base32 with = padding, as ASCII bytes. -/
def b32EncodeBytes : List Nat → List Nat
  | [] => []
  | [b0] => ((b32Groups b0 0 0 0 0).take 2).map b32At ++ List.replicate 6 61
  | [b0, b1] => ((b32Groups b0 b1 0 0 0).take 4).map b32At ++ List.replicate 4 61
  | [b0, b1, b2] => ((b32Groups b0 b1 b2 0 0).take 5).map b32At ++ List.replicate 3 61
  | [b0, b1, b2, b3] => ((b32Groups b0 b1 b2 b3 0).take 7).map b32At ++ [61]
  | b0 :: b1 :: b2 :: b3 :: b4 :: rest =>
    (b32Groups b0 b1 b2 b3 b4).map b32At ++ b32EncodeBytes rest

/-- The base85 alphabet of base64.b85encode (RFC 1924 character set). -/
def b85Alphabet : List Char :=
  "0123456789ABCDEFGHIJKLMNOPQRSTUVWXYZabcdefghijklmnopqrstuvwxyz!#$%&()*+-;<=>?@^_\x60\x7b|\x7d~".data

/-- The five base-85 digits of a 32-bit word, most significant first. -/
def base85Digits (w : Nat) : List Nat :=
  [w / 85 ^ 4, w / 85 ^ 3 % 85, w / 85 ^ 2 % 85, w / 85 % 85, w % 85]

/-- Shared worker of base64.b85encode and base64.a85encode (CPython _85encode
with pad=False): 4-byte words become five digits through the alphabet given by
at; a trailing partial group is zero-padded, encoded, and truncated to one more
character than it has bytes; when foldnuls is set a full all-zero word becomes
the single byte z (and a zero-padded trailing group still uses the digits). -/
def encode85 (at_ : Nat → Nat) (foldnuls : Bool) : List Nat → List Nat
  | [] => []
  | [b0] => ((base85Digits ((b0 * 256 * 256 * 256))).map at_).take 2
  | [b0, b1] => ((base85Digits ((b0 * 256 + b1) * 256 * 256)).map at_).take 3
  | [b0, b1, b2] => ((base85Digits (((b0 * 256 + b1) * 256 + b2) * 256)).map at_).take 4
  | b0 :: b1 :: b2 :: b3 :: rest =>
    let w := ((b0 * 256 + b1) * 256 + b2) * 256 + b3
    (if foldnuls ∧ w = 0 then [122] else (base85Digits w).map at_) ++ encode85 at_ foldnuls rest

/-- Model of base64.b85encode (pad=False). -/
def b85EncodeBytes (bs : List Nat) : List Nat :=
  encode85 (fun n => (b85Alphabet.getD n '0').toNat) false bs

/-- Model of base64.a85encode (defaults: no adobe framing, no foldspaces),
whose alphabet is chr(33 + digit) and which folds all-zero words to z. -/
def a85EncodeBytes (bs : List Nat) : List Nat :=
  encode85 (fun n => 33 + n) true bs

/-! ## Percent encoding (urllib.parse.quote / unquote) -/

/-- The characters urllib.parse.quote never escapes: ASCII letters, digits,
and the four bytes of the characters in the string made of underscore, dot,
hyphen and tilde. -/
def alwaysSafeByte (b : Nat) : Bool :=
  (48 ≤ b && b ≤ 57) || (65 ≤ b && b ≤ 90) || (97 ≤ b && b ≤ 122) ||
    b == 95 || b == 46 || b == 45 || b == 126

/-- Percent-quote one byte: kept literally when safe, otherwise a percent sign
followed by two uppercase hex digits. -/
def quoteByteBytes (safe : List Nat) (b : Nat) : List Nat :=
  if alwaysSafeByte b || safe.contains b then [b]
  else [37, hexUpperDigit (b / 16), hexUpperDigit (b % 16)]

/-- Model of urllib.parse.quote(s, safe): percent-escapes every UTF-8 byte of
s that is neither always safe nor in safe. -/
def pyQuote (s : String) (safe : List Char) : String :=
  String.mk (((utf8Encode s).flatMap (quoteByteBytes (safe.map Char.toNat))).map Char.ofNat)

/-- Model of urllib.parse.quote_plus(s) with default arguments (CPython: when
s contains a space, quote with space marked safe and then replace spaces by
plus signs, otherwise plain quote). -/
def pyQuotePlus (s : String) : String :=
  if s.data.contains ' ' then replaceChar (pyQuote s [' ']) ' ' "+" else pyQuote s []

/-- Numeric value of an ASCII hex-digit byte, if it is one (the _hextobyte
table of urllib.parse accepts both cases). -/
def hexValByte : Nat → Option Nat := fun b =>
  if 48 ≤ b ∧ b ≤ 57 then some (b - 48)
  else if 65 ≤ b ∧ b ≤ 70 then some (b - 55)
  else if 97 ≤ b ∧ b ≤ 102 then some (b - 87)
  else none

/-- Model of urllib.parse.unquote_to_bytes on ASCII input, as a scanner: a
percent byte followed by two hex digits becomes that byte; a percent byte not
followed by two hex digits stays literal; every other byte stays literal.
(CPython splits on the percent byte and consults a hex table; on every input
the two formulations produce the same bytes.) -/
def unquoteToBytes : List Nat → List Nat
  | [] => []
  | b :: rest =>
    if b = 37 then
      if rest.length < 2 then 37 :: unquoteToBytes rest
      else if (hexValByte (rest.headD 0)).isSome ∧ (hexValByte (rest.tail.headD 0)).isSome then
        (16 * (hexValByte (rest.headD 0)).getD 0 + (hexValByte (rest.tail.headD 0)).getD 0)
          :: unquoteToBytes rest.tail.tail
      else 37 :: unquoteToBytes rest
    else b :: unquoteToBytes rest
termination_by l => l.length
decreasing_by all_goals simp [List.length_tail] <;> omega

/-- Is this character an ASCII character? -/
def isAsciiChar (c : Char) : Bool := c.toNat ≤ 127

/-- Model of the chunking done by urllib.parse.unquote: the string is split
into maximal runs of non-ASCII and ASCII characters; non-ASCII runs pass
through unchanged and each ASCII run is percent-decoded to bytes and then
decoded as UTF-8 with errors=replace. -/
def unquoteRuns : List Char → List Char
  | [] => []
  | c :: cs =>
    let na := (c :: cs).takeWhile (fun x => !isAsciiChar x)
    let r1 := (c :: cs).dropWhile (fun x => !isAsciiChar x)
    let a := r1.takeWhile isAsciiChar
    let r2 := r1.dropWhile isAsciiChar
    na ++ utf8DecodeAux (unquoteToBytes (a.map Char.toNat)) ++ unquoteRuns r2
termination_by l => l.length
decreasing_by
  by_cases hc : isAsciiChar c
  · have h1 : (c :: cs).dropWhile (fun x => !isAsciiChar x) = c :: cs := by
      simp [List.dropWhile_cons, hc]
    rw [h1, List.dropWhile_cons_of_pos hc]
    exact Nat.lt_succ_of_le (List.dropWhile_sublist _).length_le
  · have h1 : (c :: cs).dropWhile (fun x => !isAsciiChar x)
        = cs.dropWhile (fun x => !isAsciiChar x) := by
      simp [List.dropWhile_cons, hc]
    rw [h1]
    exact Nat.lt_succ_of_le
      (Nat.le_trans (List.dropWhile_sublist _).length_le (List.dropWhile_sublist _).length_le)

/-- Model of urllib.parse.unquote(s) with default encoding and errors (a
string without a percent sign is returned unchanged). -/
def pyUnquote (s : String) : String :=
  if s.data.contains '%' = false then s else String.mk (unquoteRuns s.data)

/-! ## UTF-16 and the single-byte codecs -/

/-- The UTF-16 code units of one scalar value (a surrogate pair above BMP). -/
def utf16Units (v : Nat) : List Nat :=
  if v < 65536 then [v]
  else [55296 + (v - 65536) / 1024, 56320 + (v - 65536) % 1024]

/-- Model of str.encode("utf-16le"). -/
def utf16leEncode (s : String) : List Nat :=
  s.data.flatMap (fun c => (utf16Units c.toNat).flatMap (fun u => [u % 256, u / 256]))

/-- Model of str.encode("utf-16be"). -/
def utf16beEncode (s : String) : List Nat :=
  s.data.flatMap (fun c => (utf16Units c.toNat).flatMap (fun u => [u / 256, u % 256]))

/-- Model of str.encode("latin1", errors="replace"): code points up to 255 map
to themselves, anything else becomes a question mark. -/
def latin1EncodeChar (v : Nat) : Nat := if v ≤ 255 then v else 63

/-- The cp1251 mapping for code points encoded by the bytes 128..191
(pairs of code point and byte, from the cp1251 codec table; the undefined
byte 152 has no preimage).  Bytes 192..255 are the contiguous Cyrillic range
handled separately in cp1251EncodeChar. -/
def cp1251HighTable : List (Nat × Nat) :=
  [(1026, 128), (1027, 129), (8218, 130), (1107, 131), (8222, 132), (8230, 133),
   (8224, 134), (8225, 135), (8364, 136), (8240, 137), (1033, 138), (8249, 139),
   (1034, 140), (1036, 141), (1035, 142), (1039, 143), (1106, 144), (8216, 145),
   (8217, 146), (8220, 147), (8221, 148), (8226, 149), (8211, 150), (8212, 151),
   (8482, 153), (1113, 154), (8250, 155), (1114, 156), (1116, 157), (1115, 158),
   (1119, 159), (160, 160), (1038, 161), (1118, 162), (1032, 163), (164, 164),
   (1168, 165), (166, 166), (167, 167), (1025, 168), (169, 169), (1028, 170),
   (171, 171), (172, 172), (173, 173), (174, 174), (1031, 175), (176, 176),
   (177, 177), (1030, 178), (1110, 179), (1169, 180), (181, 181), (182, 182),
   (183, 183), (1105, 184), (8470, 185), (1108, 186), (187, 187), (1112, 188),
   (1029, 189), (1109, 190), (1111, 191)]

/-- Model of str.encode("cp1251", errors="replace"). -/
def cp1251EncodeChar (v : Nat) : Nat :=
  if v ≤ 127 then v
  else if 1040 ≤ v ∧ v ≤ 1103 then 192 + (v - 1040)
  else match (cp1251HighTable.find? (fun p => p.1 = v)) with
    | some p => p.2
    | none => 63

/-- The cp1252 mapping for the code points encoded by bytes 128..159 (pairs of
code point and byte, from the cp1252 codec table; the bytes 129, 141, 143, 144
and 157 are undefined in cp1252 and have no preimage). -/
def cp1252HighTable : List (Nat × Nat) :=
  [(8364, 128), (8218, 130), (402, 131), (8222, 132), (8230, 133), (8224, 134),
   (8225, 135), (710, 136), (8240, 137), (352, 138), (8249, 139), (338, 140),
   (381, 142), (8216, 145), (8217, 146), (8220, 147), (8221, 148), (8226, 149),
   (8211, 150), (8212, 151), (732, 152), (8482, 153), (353, 154), (8250, 155),
   (339, 156), (382, 158), (376, 159)]

/-- Model of str.encode("cp1252", errors="replace"): ASCII and the code points
160..255 map to themselves, the table covers the 128..159 block, anything else
becomes a question mark. -/
def cp1252EncodeChar (v : Nat) : Nat :=
  if v ≤ 127 then v
  else if 160 ≤ v ∧ v ≤ 255 then v
  else match (cp1252HighTable.find? (fun p => p.1 = v)) with
    | some p => p.2
    | none => 63

/-! ## The abstracted standard-library primitives -/

/-- The Python standard-library functions used by the registry whose output
bytes never influence a claim.  Each field has the shape of the corresponding
library call (deterministic bytes-to-bytes compressors, the quopri encoder,
the punycode codec which may raise, the unicode-escape and utf-7 codecs, and
random.shuffle, the registry's only nondeterministic dependency, modelled as
an arbitrary permutation function fixed for the run).  Every theorem below
holds for every instantiation of this record. -/
structure PyPrims where
  gzipCompress : List Nat → List Nat
  gzipCompress9 : List Nat → List Nat
  zlibCompress : List Nat → List Nat
  zlibCompress9 : List Nat → List Nat
  bz2Compress : List Nat → List Nat
  lzmaCompress : List Nat → List Nat
  quopriEncode : List Nat → List Nat
  punycodeEncode : String → Except PyErr (List Nat)
  unicodeEscapeBytes : String → List Nat
  utf7Encode : String → List Nat
  shuffle : List Char → List Char

/-- Model of str.encode(encoding, errors="replace") for the seven encodings of
BYTE_ENCODINGS.  The final branch is unreachable in the registry build, which
only passes those seven names. -/
def pyEncodeReplace (p : PyPrims) (encoding : String) (s : String) : List Nat :=
  if encoding = "utf-8" then utf8Encode s
  else if encoding = "latin1" then s.data.map (fun c => latin1EncodeChar c.toNat)
  else if encoding = "cp1251" then s.data.map (fun c => cp1251EncodeChar c.toNat)
  else if encoding = "cp1252" then s.data.map (fun c => cp1252EncodeChar c.toNat)
  else if encoding = "utf-16le" then utf16leEncode s
  else if encoding = "utf-16be" then utf16beEncode s
  else if encoding = "utf-7" then p.utf7Encode s
  else utf8Encode s

/-! ## The base transform set (transforms.py, top-level functions) -/

/-- Rotation by 13 of one character, as the rot_13 codec does it. -/
def rot13Char (c : Char) : Char :=
  if 97 ≤ c.toNat ∧ c.toNat ≤ 122 then Char.ofNat (97 + (c.toNat - 97 + 13) % 26)
  else if 65 ≤ c.toNat ∧ c.toNat ≤ 90 then Char.ofNat (65 + (c.toNat - 65 + 13) % 26)
  else c

/-- noop: return the string unchanged. -/
def noop (s : String) : Except PyErr String := Except.ok s

/-- base64_std: standard base64 of the UTF-8 bytes. -/
def base64_std (s : String) : Except PyErr String :=
  decodeAscii (b64EncodeBytes (utf8Encode s))

/-- base64_urlsafe: base64 over the URL-safe alphabet (minus and underscore
replacing plus and slash). -/
def base64_urlsafe (s : String) : Except PyErr String :=
  decodeAscii ((b64EncodeBytes (utf8Encode s)).map
    (fun b => if b = 43 then 45 else if b = 47 then 95 else b))

/-- base64_nopad: base64 with the trailing = padding stripped. -/
def base64_nopad (s : String) : Except PyErr String :=
  (decodeAscii (b64EncodeBytes (utf8Encode s))).map (fun t => rstripChar t '=')

/-- hex_lower: lowercase hex of the UTF-8 bytes. -/
def hex_lower (s : String) : Except PyErr String :=
  decodeAscii (hexlifyBytes (utf8Encode s))

/-- hex_upper: uppercase hex of the UTF-8 bytes. -/
def hex_upper (s : String) : Except PyErr String :=
  (decodeAscii (hexlifyBytes (utf8Encode s))).map asciiUpper

/-- backslash_x: each UTF-8 byte as a backslash-x escape. -/
def backslash_x (s : String) : Except PyErr String :=
  Except.ok (String.join ((utf8Encode s).map (fun b => "\\x" ++ hex2Lower b)))

/-- url_encode_all: percent-encode with no safe characters. -/
def url_encode_all (s : String) : Except PyErr String := Except.ok (pyQuote s [])

/-- url_encode_safe_slash: percent-encode keeping slashes. -/
def url_encode_safe_slash (s : String) : Except PyErr String :=
  Except.ok (pyQuote s ['/'])

/-- double_url: percent-encode twice with no safe characters. -/
def double_url (s : String) : Except PyErr String :=
  Except.ok (pyQuote (pyQuote s []) [])

/-- html_escape_named: html.escape with quote=True (written per character;
this equals the sequence of str.replace calls html.escape performs, since the
ampersand replacement comes first). -/
def html_escape_named (s : String) : Except PyErr String :=
  Except.ok (String.mk (s.data.flatMap (fun ch =>
    if ch = '&' then "&amp;".data
    else if ch = '<' then "&lt;".data
    else if ch = '>' then "&gt;".data
    else if ch = '"' then "&quot;".data
    else if ch = '\'' then "&#x27;".data
    else [ch])))

/-- html_numeric_dec: decimal numeric references for the five specials and
every character above 127. -/
def html_numeric_dec (s : String) : Except PyErr String :=
  Except.ok (String.mk (s.data.flatMap (fun ch =>
    if 127 < ch.toNat ∨ ch ∈ ['<', '>', '&', '"', '\''] then
      ("&#" ++ toString ch.toNat ++ ";").data
    else [ch])))

/-- html_numeric_hex: hexadecimal numeric references for the five specials and
every character above 127. -/
def html_numeric_hex (s : String) : Except PyErr String :=
  Except.ok (String.mk (s.data.flatMap (fun ch =>
    if 127 < ch.toNat ∨ ch ∈ ['<', '>', '&', '"', '\''] then
      ("&#x" ++ natToHexLower ch.toNat ++ ";").data
    else [ch])))

/-- unicode_escape_python: the unicode_escape codec then an ASCII decode
(no try block in the source). -/
def unicode_escape_python (p : PyPrims) (s : String) : Except PyErr String :=
  decodeAscii (p.unicodeEscapeBytes s)

/-- js_escape: JavaScript-style escaping as written in the source. -/
def js_escape (s : String) : Except PyErr String :=
  Except.ok (String.mk (s.data.flatMap (fun ch =>
    if ch = '\n' then ['\\', 'n']
    else if ch = '\r' then ['\\', 'r']
    else if ch = '\t' then ['\\', 't']
    else if ch ∈ ['\'', '"', '\\'] then ['\\', ch]
    else if 32 ≤ ch.toNat ∧ ch.toNat < 127 then [ch]
    else '\\' :: 'u' :: (padLeft4 (natToHexLower ch.toNat)).data)))

/-- rot13: the rot_13 codec. -/
def rot13 (s : String) : Except PyErr String :=
  Except.ok (String.mk (s.data.map rot13Char))

/-- rot47: rotate the 94 printable ASCII characters by 47. -/
def rot47 (s : String) : Except PyErr String :=
  Except.ok (String.mk (s.data.map (fun c =>
    if 33 ≤ c.toNat ∧ c.toNat ≤ 126 then Char.ofNat (33 + (c.toNat - 33 + 47) % 94)
    else c)))

/-- gzip_base64: gzip-compress the UTF-8 bytes, then base64. -/
def gzip_base64 (p : PyPrims) (s : String) : Except PyErr String :=
  decodeAscii (b64EncodeBytes (p.gzipCompress (utf8Encode s)))

/-- zlib_base64: zlib-compress the UTF-8 bytes, then base64. -/
def zlib_base64 (p : PyPrims) (s : String) : Except PyErr String :=
  decodeAscii (b64EncodeBytes (p.zlibCompress (utf8Encode s)))

/-- bz2_base64: bz2-compress the UTF-8 bytes, then base64. -/
def bz2_base64 (p : PyPrims) (s : String) : Except PyErr String :=
  decodeAscii (b64EncodeBytes (p.bz2Compress (utf8Encode s)))

/-- lzma_base64: lzma-compress the UTF-8 bytes, then base64. -/
def lzma_base64 (p : PyPrims) (s : String) : Except PyErr String :=
  decodeAscii (b64EncodeBytes (p.lzmaCompress (utf8Encode s)))

/-- base32_std: base32 of the UTF-8 bytes. -/
def base32_std (s : String) : Except PyErr String :=
  decodeAscii (b32EncodeBytes (utf8Encode s))

/-- base85_std: b85 of the UTF-8 bytes. -/
def base85_std (s : String) : Except PyErr String :=
  decodeAscii (b85EncodeBytes (utf8Encode s))

/-- ascii85_std: a85 of the UTF-8 bytes. -/
def ascii85_std (s : String) : Except PyErr String :=
  decodeAscii (a85EncodeBytes (utf8Encode s))

/-- quoted_printable: quopri.encodestring then an ASCII decode. -/
def quoted_printable (p : PyPrims) (s : String) : Except PyErr String :=
  decodeAscii (p.quopriEncode (utf8Encode s))

/-- punycode: the punycode codec, falling back to the input on any error
(the source wraps this one in try/except). -/
def punycode (p : PyPrims) (s : String) : Except PyErr String :=
  pyTry s ((p.punycodeEncode s).bind decodeAscii)

/-- base64_custom_chars: base64 with plus replaced by underscore and slash by
minus. -/
def base64_custom_chars (s : String) : Except PyErr String :=
  (decodeAscii (b64EncodeBytes (utf8Encode s))).map
    (fun b64 => replaceChar (replaceChar b64 '+' "_") '/' "-")

/-- base64_dot_pad: strip the = padding and left-justify with dots back to the
original length. -/
def base64_dot_pad (s : String) : Except PyErr String :=
  (decodeAscii (b64EncodeBytes (utf8Encode s))).map (fun b64 =>
    let stripped := rstripChar b64 '='
    stripped ++ String.mk (List.replicate (b64.length - stripped.length) '.'))

/-- hex_colon: hex bytes joined by colons. -/
def hex_colon (s : String) : Except PyErr String :=
  Except.ok (String.intercalate ":" ((utf8Encode s).map hex2Lower))

/-- hex_space: hex bytes joined by spaces. -/
def hex_space (s : String) : Except PyErr String :=
  Except.ok (String.intercalate " " ((utf8Encode s).map hex2Lower))

/-- hex_reverse: hex of the reversed UTF-8 bytes. -/
def hex_reverse (s : String) : Except PyErr String :=
  decodeAscii (hexlifyBytes (utf8Encode s).reverse)

/-- rot5_digits: rotate decimal digits by 5.  (Python str.isdigit also accepts
some non-ASCII digit characters; the difference is immaterial to every claim,
none of which evaluates this transform.) -/
def rot5_digits (s : String) : Except PyErr String :=
  Except.ok (String.mk (s.data.map (fun c =>
    if 48 ≤ c.toNat ∧ c.toNat ≤ 57 then Char.ofNat ((c.toNat - 48 + 5) % 10 + 48) else c)))

/-- rot13_base64: rot13 first, then base64 of the UTF-8 bytes. -/
def rot13_base64 (s : String) : Except PyErr String :=
  decodeAscii (b64EncodeBytes (utf8Encode (String.mk (s.data.map rot13Char))))

/-- base64_mime: slices of the base64 string at offsets 0, 76, ... strictly
below twice the character length of the input, joined by newlines (the bound
is the one the source uses). -/
def base64_mime (s : String) : Except PyErr String :=
  (decodeAscii (b64EncodeBytes (utf8Encode s))).map (fun b64 =>
    String.intercalate "\n" ((List.range ((2 * s.length + 75) / 76)).map
      (fun k => String.mk ((b64.data.drop (76 * k)).take 76))))

/-- url_encode_plus: urllib.parse.quote_plus. -/
def url_encode_plus (s : String) : Except PyErr String := Except.ok (pyQuotePlus s)

/-- url_decode: urllib.parse.unquote inside try/except. -/
def url_decode (s : String) : Except PyErr String :=
  pyTry s (Except.ok (pyUnquote s))

/-- html_escape_num_only: decimal references for exactly the five specials. -/
def html_escape_num_only (s : String) : Except PyErr String :=
  Except.ok (String.mk (s.data.flatMap (fun c =>
    if c ∈ ['&', '<', '>', '"', '\''] then ("&#" ++ toString c.toNat ++ ";").data
    else [c])))

/-- hex_0x_prefix: each UTF-8 byte as 0x followed by two hex digits. -/
def hex_0x_prefix (s : String) : Except PyErr String :=
  Except.ok (String.join ((utf8Encode s).map (fun b => "0x" ++ hex2Lower b)))

/-- unicode_escape_upper: backslash-u with four uppercase hex digits for every
character above 127. -/
def unicode_escape_upper (s : String) : Except PyErr String :=
  Except.ok (String.mk (s.data.flatMap (fun c =>
    if 127 < c.toNat then '\\' :: 'u' :: (padLeft4 (natToHexUpper c.toNat)).data
    else [c])))

/-- shuffle_string: permute the characters using the process-wide random
source (the abstracted shuffle primitive). -/
def shuffle_string (p : PyPrims) (s : String) : Except PyErr String :=
  Except.ok (String.mk (p.shuffle s.data))

/-- repeat_2x: the string twice. -/
def repeat_2x (s : String) : Except PyErr String := Except.ok (s ++ s)

/-- repeat_3x: the string three times. -/
def repeat_3x (s : String) : Except PyErr String := Except.ok (s ++ s ++ s)

/-- prefix_enc: prepend ENC: to the string. -/
def prefix_enc (s : String) : Except PyErr String := Except.ok ("ENC:" ++ s)

/-- suffix_end: append :END to the string. -/
def suffix_end (s : String) : Except PyErr String := Except.ok (s ++ ":END")

/-- reverse_string: the characters in reverse order. -/
def reverse_string (s : String) : Except PyErr String :=
  Except.ok (String.mk s.data.reverse)

/-- reverse_bytes_hex: hex of the reversed UTF-8 bytes. -/
def reverse_bytes_hex (s : String) : Except PyErr String :=
  decodeAscii (hexlifyBytes (utf8Encode s).reverse)

/-- utf16le_bom_base64: base64 of a little-endian BOM plus the UTF-16LE
bytes. -/
def utf16le_bom_base64 (s : String) : Except PyErr String :=
  decodeAscii (b64EncodeBytes (255 :: 254 :: utf16leEncode s))

/-- utf16be_bom_base64: base64 of a big-endian BOM plus the UTF-16BE bytes. -/
def utf16be_bom_base64 (s : String) : Except PyErr String :=
  decodeAscii (b64EncodeBytes (254 :: 255 :: utf16beEncode s))

/-- zlib_max_base64: zlib at level 9, then base64. -/
def zlib_max_base64 (p : PyPrims) (s : String) : Except PyErr String :=
  decodeAscii (b64EncodeBytes (p.zlibCompress9 (utf8Encode s)))

/-- gzip_max_base64: gzip at level 9, then base64. -/
def gzip_max_base64 (p : PyPrims) (s : String) : Except PyErr String :=
  decodeAscii (b64EncodeBytes (p.gzipCompress9 (utf8Encode s)))

/-- ascii_codes_dash: the decimal code points joined by dashes. -/
def ascii_codes_dash (s : String) : Except PyErr String :=
  Except.ok (String.intercalate "-" (s.data.map (fun c => toString c.toNat)))

/-- ascii_codes_to_hex: concatenate the decimal code points and hexlify that
digit string (its ASCII encode never fails on digits). -/
def ascii_codes_to_hex (s : String) : Except PyErr String :=
  decodeAscii (hexlifyBytes
    ((String.join (s.data.map (fun c => toString c.toNat))).data.map Char.toNat))

/-- base64_no_pad: base64 with the trailing = padding stripped (a second,
independently defined copy of the same operation). -/
def base64_no_pad (s : String) : Except PyErr String :=
  (decodeAscii (b64EncodeBytes (utf8Encode s))).map (fun t => rstripChar t '=')

/-- base85_rot13: b85 first, then rot13 of the resulting text. -/
def base85_rot13 (s : String) : Except PyErr String :=
  (decodeAscii (b85EncodeBytes (utf8Encode s))).map
    (fun b85 => String.mk (b85.data.map rot13Char))

/-- base32_no_pad: base32 with the trailing = padding stripped. -/
def base32_no_pad (s : String) : Except PyErr String :=
  (decodeAscii (b32EncodeBytes (utf8Encode s))).map (fun t => rstripChar t '=')

/-- remove_whitespace: delete spaces and tabs. -/
def remove_whitespace (s : String) : Except PyErr String :=
  Except.ok (replaceChar (replaceChar s ' ' "") '\t' "")

/-- unicode_codepoints_space: U+XXXX forms joined by spaces. -/
def unicode_codepoints_space (s : String) : Except PyErr String :=
  Except.ok (String.intercalate " "
    (s.data.map (fun c => "U+" ++ padLeft4 (natToHexUpper c.toNat))))

/-- escape_quotes: backslash-escape double quotes. -/
def escape_quotes (s : String) : Except PyErr String :=
  Except.ok (replaceChar s '"' "\\\"")

/-- escape_apostrophes: backslash-escape single quotes. -/
def escape_apostrophes (s : String) : Except PyErr String :=
  Except.ok (replaceChar s '\'' (String.mk ['\\', '\'']))

/-- base64_replace_a: base64 with the letter A replaced by the at sign. -/
def base64_replace_a (s : String) : Except PyErr String :=
  (decodeAscii (b64EncodeBytes (utf8Encode s))).map (fun t => replaceChar t 'A' "@")

/-- qp_custom: quoted-printable with underscores rewritten as =5F. -/
def qp_custom (p : PyPrims) (s : String) : Except PyErr String :=
  (decodeAscii (p.quopriEncode (utf8Encode s))).map (fun t => replaceChar t '_' "=5F")

/-- hex_then_base64: hexlify, then base64 of the hex bytes. -/
def hex_then_base64 (s : String) : Except PyErr String :=
  decodeAscii (b64EncodeBytes (hexlifyBytes (utf8Encode s)))

/-- base64_then_hex: base64, then hexlify of the base64 bytes. -/
def base64_then_hex (s : String) : Except PyErr String :=
  decodeAscii (hexlifyBytes (b64EncodeBytes (utf8Encode s)))

/-- zlib_then_hex: zlib-compress, then hexlify. -/
def zlib_then_hex (p : PyPrims) (s : String) : Except PyErr String :=
  decodeAscii (hexlifyBytes (p.zlibCompress (utf8Encode s)))

/-- lzma_then_hex: lzma-compress, then hexlify. -/
def lzma_then_hex (p : PyPrims) (s : String) : Except PyErr String :=
  decodeAscii (hexlifyBytes (p.lzmaCompress (utf8Encode s)))

/-! ## The parameterized generator (make_bytes_transform) -/

/-- The fixed set of byte encodings crossed with the representations. -/
def BYTE_ENCODINGS : List String :=
  ["utf-8", "latin1", "cp1251", "cp1252", "utf-16le", "utf-16be", "utf-7"]

/-- make_bytes_transform: encode into the given byte encoding with
errors=replace, then render as hex, base64 or percent bytes; each branch
returns the input unchanged if anything inside raises.  The final branch
models the ValueError the Python generator raises for an unknown
representation; the build only ever passes the three known ones. -/
def make_bytes_transform (p : PyPrims) (encoding output : String) : Transform :=
  let f_hex : Transform := fun s =>
    pyTry s (decodeAscii (hexlifyBytes (pyEncodeReplace p encoding s)))
  let f_b64 : Transform := fun s =>
    pyTry s (decodeAscii (b64EncodeBytes (pyEncodeReplace p encoding s)))
  let f_pct : Transform := fun s =>
    pyTry s (Except.ok (String.mk ((pyEncodeReplace p encoding s).flatMap
      (fun b => ['%', Char.ofNat (hexUpperDigit (b / 16)), Char.ofNat (hexUpperDigit (b % 16))]))))
  if output = "hex" then f_hex
  else if output = "base64" then f_b64
  else if output = "percent" then f_pct
  else fun _ => Except.error PyErr.transformFailure

/-- Remove every dash (model of the replace of dash by the empty string used
to build the generated names). -/
def stripDashes (s : String) : String := String.mk (s.data.filter (fun c => c ≠ '-'))

/-- The name of a generated transform: encoding identifier with punctuation
stripped, an underscore, then the representation identifier. -/
def genName (enc out : String) : String := stripDashes enc ++ "_" ++ out

/-- url_pct_lower: percent-encode everything, then lowercase the result. -/
def url_pct_lower (s : String) : Except PyErr String :=
  Except.ok (asciiLower (pyQuote s []))

/-- percent_bytes_lower: percent form with lowercase hex digits. -/
def percent_bytes_lower (s : String) : Except PyErr String :=
  Except.ok (String.mk ((utf8Encode s).flatMap
    (fun b => ['%', Char.ofNat (hexLowerDigit (b / 16)), Char.ofNat (hexLowerDigit (b % 16))])))

/-- _nested_quote: percent-encode n times over. -/
def _nested_quote (s : String) : Nat → String
  | 0 => s
  | n + 1 => pyQuote (_nested_quote s n) []

/-! ## The chain combinator and the registry build -/

/-- make_chain: apply f1 then f2; if either step raises, return the original
input unchanged. -/
def make_chain (f1 f2 : Transform) : Transform := fun s =>
  match f1 s with
  | Except.ok t =>
    match f2 t with
    | Except.ok u => Except.ok u
    | Except.error _ => Except.ok s
  | Except.error _ => Except.ok s

/-- Python dict assignment d[k] = v, on a dict whose bindings are held in
reverse insertion order (the build below keeps its accumulator reversed and
restores insertion order with one final List.reverse; a fresh key, appended at
the end of a Python dict, is therefore a cons here).  Assignment to a key that
is already present would replace its value in place; during the registry build
no key is ever assigned twice - the registration-order name list is proved
Nodup below - so assignment is exactly the consing of a fresh binding. -/
def dictInsertRev (d : List (String × α)) (k : String) (v : α) : List (String × α) :=
  (k, v) :: d

/-- Python dict subscript d[k].  A missing key raises KeyError in Python; in
the build below every subscripted key is present, so the default transform is
never produced. -/
def dictGet (d : List (String × Transform)) (k : String) : Transform :=
  (d.lookup k).getD (fun _ => Except.error PyErr.transformFailure)

/-- The literal TRANSFORMS dict of the source, in source order. -/
def TRANSFORMS_base (p : PyPrims) : List (String × Transform) :=
  [("noop", noop),
   ("base64", base64_std),
   ("base64_urlsafe", base64_urlsafe),
   ("base64_nopad", base64_nopad),
   ("hex_lower", hex_lower),
   ("hex_upper", hex_upper),
   ("backslash_x", backslash_x),
   ("url_all", url_encode_all),
   ("url_safe_slash", url_encode_safe_slash),
   ("double_url", double_url),
   ("html_named", html_escape_named),
   ("html_num_dec", html_numeric_dec),
   ("html_num_hex", html_numeric_hex),
   ("unicode_escape", unicode_escape_python p),
   ("js_escape", js_escape),
   ("rot13", rot13),
   ("rot47", rot47),
   ("gzip_base64", gzip_base64 p),
   ("zlib_base64", zlib_base64 p),
   ("bz2_base64", bz2_base64 p),
   ("lzma_base64", lzma_base64 p),
   ("base32", base32_std),
   ("base85", base85_std),
   ("ascii85", ascii85_std),
   ("quoted_printable", quoted_printable p),
   ("punycode", punycode p),
   ("base64_custom_chars", base64_custom_chars),
   ("base64_dot_pad", base64_dot_pad),
   ("hex_colon", hex_colon),
   ("hex_space", hex_space),
   ("hex_reverse", hex_reverse),
   ("rot5_digits", rot5_digits),
   ("rot13_base64", rot13_base64),
   ("base64_mime", base64_mime),
   ("url_encode_plus", url_encode_plus),
   ("url_decode", url_decode),
   ("html_escape_num_only", html_escape_num_only),
   ("hex_0x_prefix", hex_0x_prefix),
   ("unicode_escape_upper", unicode_escape_upper),
   ("shuffle_string", shuffle_string p),
   ("repeat_2x", repeat_2x),
   ("repeat_3x", repeat_3x),
   ("prefix_enc", prefix_enc),
   ("suffix_end", suffix_end),
   ("reverse_string", reverse_string),
   ("reverse_bytes_hex", reverse_bytes_hex),
   ("utf16le_bom_base64", utf16le_bom_base64),
   ("utf16be_bom_base64", utf16be_bom_base64),
   ("zlib_max_base64", zlib_max_base64 p),
   ("gzip_max_base64", gzip_max_base64 p),
   ("ascii_codes_dash", ascii_codes_dash),
   ("ascii_codes_to_hex", ascii_codes_to_hex),
   ("base64_no_pad", base64_no_pad),
   ("base85_rot13", base85_rot13),
   ("base32_no_pad", base32_no_pad),
   ("remove_whitespace", remove_whitespace),
   ("unicode_codepoints_space", unicode_codepoints_space),
   ("escape_quotes", escape_quotes),
   ("escape_apostrophes", escape_apostrophes),
   ("base64_replace_a", base64_replace_a),
   ("qp_custom", qp_custom p),
   ("hex_then_base64", hex_then_base64),
   ("base64_then_hex", base64_then_hex),
   ("zlib_then_hex", zlib_then_hex p),
   ("lzma_then_hex", lzma_then_hex p)]

/-- The generated-family pass: for each encoding, for each representation,
assign the generated transform under its generated name (reversed dict). -/
def addGenerated (p : PyPrims) (d0 : List (String × Transform)) : List (String × Transform) :=
  BYTE_ENCODINGS.foldl (fun d enc =>
    (["hex", "base64", "percent"] : List String).foldl (fun d2 out =>
      dictInsertRev d2 (genName enc out) (make_bytes_transform p enc out)) d) d0

/-- The two percent-helper assignments that follow the generated family
(reversed dict). -/
def addPercentHelpers (d : List (String × Transform)) : List (String × Transform) :=
  dictInsertRev (dictInsertRev d "url_pct_lower" url_pct_lower)
    "percent_bytes_lower" percent_bytes_lower

/-- The double_url_ix family for repeat counts 2 through 5; the lambda takes
the loop counter as a default-argument value, so each transform captures its
own count (reversed dict). -/
def addDoubleUrls (d0 : List (String × Transform)) : List (String × Transform) :=
  (List.range' 2 4).foldl (fun d i =>
    dictInsertRev d ("double_url_" ++ toString i ++ "x")
      ((fun n => fun s => Except.ok (_nested_quote s n)) i)) d0

/-- The chain pass, on the reversed dict: snapshot is the registry in
insertion order as it stands before the pass (Python's existing_keys list,
with the values alongside).  Over that snapshot, pair position i (i below
min(30, length)) with positions i+1 .. min(i+4, length)-1 and assign
make_chain of the two subscripted transforms under the name
first__then__second.  Python subscripts the dict by the i-th and j-th names
of its key snapshot; the keys are pairwise distinct and never chain names, so
each subscript returns the value of the snapshot binding at that position,
which the model reads directly (the getD defaults are never produced, since
every position is in range). -/
def addChains (snapshot d0 : List (String × Transform)) : List (String × Transform) :=
  let keys := snapshot.map (fun kv => kv.1)
  (List.range (min 30 keys.length)).foldl (fun d i =>
    (List.range' (i + 1) (min (i + 4) keys.length - (i + 1))).foldl (fun d2 j =>
      let a := keys.getD i ""
      let b := keys.getD j ""
      let f_a := (snapshot.getD i ("", fun _ => Except.error PyErr.transformFailure)).2
      let f_b := (snapshot.getD j ("", fun _ => Except.error PyErr.transformFailure)).2
      dictInsertRev d2 (a ++ "__then__" ++ b) (make_chain f_a f_b)) d) d0

/-- The registry as it stands after the generated family, the percent helpers
and the double_url family, before the chain pass samples its keys; still in
reverse insertion order. -/
def TRANSFORMS_beforeChainsRev (p : PyPrims) : List (String × Transform) :=
  addDoubleUrls (addPercentHelpers (addGenerated p (TRANSFORMS_base p).reverse))

/-- The pre-chain registry in insertion order. -/
def TRANSFORMS_beforeChains (p : PyPrims) : List (String × Transform) :=
  (TRANSFORMS_beforeChainsRev p).reverse

/-- The finished registry in insertion order: every pass applied in the order
of the module (the chain pass receives the insertion-order snapshot of the
registry built so far). -/
def TRANSFORMS (p : PyPrims) : List (String × Transform) :=
  (addChains ((TRANSFORMS_beforeChainsRev p).reverse) (TRANSFORMS_beforeChainsRev p)).reverse

/-! ## The facade -/

/-- transform_payloads (changing_the_format.py): look the transform up,
failing with the unknown-transform error when the name is absent; then map it
over the payload field of every entry, replacing a failing application by the
original payload. -/
def transform_payloads (p : PyPrims) (json_data : List (List (String × String)))
    (transform_name : String) : Except PyErr (List String) :=
  match (TRANSFORMS p).lookup transform_name with
  | none => Except.error PyErr.unknownTransform
  | some transform_func =>
    Except.ok (json_data.map (fun entry =>
      let payload := (entry.lookup "payload").getD ""
      match transform_func payload with
      | Except.ok t => t
      | Except.error _ => payload))

/-- Apply the transform registered under the given name to one string (the
per-name application the facade performs for each entry). -/
def applyT (p : PyPrims) (name : String) (s : String) : Option (Except PyErr String) :=
  ((TRANSFORMS p).lookup name).map (fun f => f s)

/-- Python string comparison: lexicographic on code points. -/
def charListLe : List Char → List Char → Bool
  | [], _ => true
  | _ :: _, [] => false
  | a :: as, b :: bs =>
    if a.toNat < b.toNat then true
    else if b.toNat < a.toNat then false
    else charListLe as bs

/-- Python string less-or-equal. -/
def pyStrLe (a b : String) : Bool := charListLe a.data b.data

/-- list_transforms: sorted(TRANSFORMS.keys()).  Python sorted returns the
permutation of the keys that is sorted under the code-point order; the keys
are pairwise distinct, so insertion sort under the same order produces exactly
that permutation. -/
def list_transforms (p : PyPrims) : List String :=
  List.insertionSort (fun a b => pyStrLe a b = true) ((TRANSFORMS p).map (fun kv => kv.1))

/-- One arbitrary instantiation of the abstracted standard-library primitives,
used to state closed witness instances; every theorem holds for all
instantiations. -/
def defaultPrims : PyPrims where
  gzipCompress := fun bs => bs
  gzipCompress9 := fun bs => bs
  zlibCompress := fun bs => bs
  zlibCompress9 := fun bs => bs
  bz2Compress := fun bs => bs
  lzmaCompress := fun bs => bs
  quopriEncode := fun bs => bs
  punycodeEncode := fun s => Except.ok (utf8Encode s)
  unicodeEscapeBytes := fun s => utf8Encode s
  utf7Encode := fun s => utf8Encode s
  shuffle := fun cs => cs

/-- The names of the finished registry, in registration order. -/
def allRegistryNames : List String :=
  ["noop", "base64", "base64_urlsafe", "base64_nopad", "hex_lower", "hex_upper", "backslash_x",
   "url_all", "url_safe_slash", "double_url", "html_named", "html_num_dec", "html_num_hex",
   "unicode_escape", "js_escape", "rot13", "rot47", "gzip_base64", "zlib_base64", "bz2_base64",
   "lzma_base64", "base32", "base85", "ascii85", "quoted_printable", "punycode",
   "base64_custom_chars", "base64_dot_pad", "hex_colon", "hex_space", "hex_reverse",
   "rot5_digits", "rot13_base64", "base64_mime", "url_encode_plus", "url_decode",
   "html_escape_num_only", "hex_0x_prefix", "unicode_escape_upper", "shuffle_string", "repeat_2x",
   "repeat_3x", "prefix_enc", "suffix_end", "reverse_string", "reverse_bytes_hex",
   "utf16le_bom_base64", "utf16be_bom_base64", "zlib_max_base64", "gzip_max_base64",
   "ascii_codes_dash", "ascii_codes_to_hex", "base64_no_pad", "base85_rot13", "base32_no_pad",
   "remove_whitespace", "unicode_codepoints_space", "escape_quotes", "escape_apostrophes",
   "base64_replace_a", "qp_custom", "hex_then_base64", "base64_then_hex", "zlib_then_hex",
   "lzma_then_hex", "utf8_hex", "utf8_base64", "utf8_percent", "latin1_hex", "latin1_base64",
   "latin1_percent", "cp1251_hex", "cp1251_base64", "cp1251_percent", "cp1252_hex",
   "cp1252_base64", "cp1252_percent", "utf16le_hex", "utf16le_base64", "utf16le_percent",
   "utf16be_hex", "utf16be_base64", "utf16be_percent", "utf7_hex", "utf7_base64", "utf7_percent",
   "url_pct_lower", "percent_bytes_lower", "double_url_2x", "double_url_3x", "double_url_4x",
   "double_url_5x", "noop__then__base64", "noop__then__base64_urlsafe",
   "noop__then__base64_nopad", "base64__then__base64_urlsafe", "base64__then__base64_nopad",
   "base64__then__hex_lower", "base64_urlsafe__then__base64_nopad",
   "base64_urlsafe__then__hex_lower", "base64_urlsafe__then__hex_upper",
   "base64_nopad__then__hex_lower", "base64_nopad__then__hex_upper",
   "base64_nopad__then__backslash_x", "hex_lower__then__hex_upper",
   "hex_lower__then__backslash_x", "hex_lower__then__url_all", "hex_upper__then__backslash_x",
   "hex_upper__then__url_all", "hex_upper__then__url_safe_slash", "backslash_x__then__url_all",
   "backslash_x__then__url_safe_slash", "backslash_x__then__double_url",
   "url_all__then__url_safe_slash", "url_all__then__double_url", "url_all__then__html_named",
   "url_safe_slash__then__double_url", "url_safe_slash__then__html_named",
   "url_safe_slash__then__html_num_dec", "double_url__then__html_named",
   "double_url__then__html_num_dec", "double_url__then__html_num_hex",
   "html_named__then__html_num_dec", "html_named__then__html_num_hex",
   "html_named__then__unicode_escape", "html_num_dec__then__html_num_hex",
   "html_num_dec__then__unicode_escape", "html_num_dec__then__js_escape",
   "html_num_hex__then__unicode_escape", "html_num_hex__then__js_escape",
   "html_num_hex__then__rot13", "unicode_escape__then__js_escape", "unicode_escape__then__rot13",
   "unicode_escape__then__rot47", "js_escape__then__rot13", "js_escape__then__rot47",
   "js_escape__then__gzip_base64", "rot13__then__rot47", "rot13__then__gzip_base64",
   "rot13__then__zlib_base64", "rot47__then__gzip_base64", "rot47__then__zlib_base64",
   "rot47__then__bz2_base64", "gzip_base64__then__zlib_base64", "gzip_base64__then__bz2_base64",
   "gzip_base64__then__lzma_base64", "zlib_base64__then__bz2_base64",
   "zlib_base64__then__lzma_base64", "zlib_base64__then__base32", "bz2_base64__then__lzma_base64",
   "bz2_base64__then__base32", "bz2_base64__then__base85", "lzma_base64__then__base32",
   "lzma_base64__then__base85", "lzma_base64__then__ascii85", "base32__then__base85",
   "base32__then__ascii85", "base32__then__quoted_printable", "base85__then__ascii85",
   "base85__then__quoted_printable", "base85__then__punycode", "ascii85__then__quoted_printable",
   "ascii85__then__punycode", "ascii85__then__base64_custom_chars",
   "quoted_printable__then__punycode", "quoted_printable__then__base64_custom_chars",
   "quoted_printable__then__base64_dot_pad", "punycode__then__base64_custom_chars",
   "punycode__then__base64_dot_pad", "punycode__then__hex_colon",
   "base64_custom_chars__then__base64_dot_pad", "base64_custom_chars__then__hex_colon",
   "base64_custom_chars__then__hex_space", "base64_dot_pad__then__hex_colon",
   "base64_dot_pad__then__hex_space", "base64_dot_pad__then__hex_reverse",
   "hex_colon__then__hex_space", "hex_colon__then__hex_reverse", "hex_colon__then__rot5_digits",
   "hex_space__then__hex_reverse", "hex_space__then__rot5_digits",
   "hex_space__then__rot13_base64"]

/-! ## Explicit form of the registry -/

/-- The generated-family entries, written out: one entry per
(encoding, representation) pair, in loop order. -/
def genEntriesExplicit (p : PyPrims) : List (String × Transform) :=
  [("utf8_hex", make_bytes_transform p "utf-8" "hex"),
   ("utf8_base64", make_bytes_transform p "utf-8" "base64"),
   ("utf8_percent", make_bytes_transform p "utf-8" "percent"),
   ("latin1_hex", make_bytes_transform p "latin1" "hex"),
   ("latin1_base64", make_bytes_transform p "latin1" "base64"),
   ("latin1_percent", make_bytes_transform p "latin1" "percent"),
   ("cp1251_hex", make_bytes_transform p "cp1251" "hex"),
   ("cp1251_base64", make_bytes_transform p "cp1251" "base64"),
   ("cp1251_percent", make_bytes_transform p "cp1251" "percent"),
   ("cp1252_hex", make_bytes_transform p "cp1252" "hex"),
   ("cp1252_base64", make_bytes_transform p "cp1252" "base64"),
   ("cp1252_percent", make_bytes_transform p "cp1252" "percent"),
   ("utf16le_hex", make_bytes_transform p "utf-16le" "hex"),
   ("utf16le_base64", make_bytes_transform p "utf-16le" "base64"),
   ("utf16le_percent", make_bytes_transform p "utf-16le" "percent"),
   ("utf16be_hex", make_bytes_transform p "utf-16be" "hex"),
   ("utf16be_base64", make_bytes_transform p "utf-16be" "base64"),
   ("utf16be_percent", make_bytes_transform p "utf-16be" "percent"),
   ("utf7_hex", make_bytes_transform p "utf-7" "hex"),
   ("utf7_base64", make_bytes_transform p "utf-7" "base64"),
   ("utf7_percent", make_bytes_transform p "utf-7" "percent")]

/-- The double_url entries, written out. -/
def dblEntriesExplicit : List (String × Transform) :=
  [("double_url_2x", fun s => Except.ok (_nested_quote s 2)),
   ("double_url_3x", fun s => Except.ok (_nested_quote s 3)),
   ("double_url_4x", fun s => Except.ok (_nested_quote s 4)),
   ("double_url_5x", fun s => Except.ok (_nested_quote s 5))]

/-- The chain entries, written out: the two components of each chain are the
transforms the build subscripts from the registry at chain time. -/
def chainEntriesExplicit (p : PyPrims) : List (String × Transform) :=
  [("noop__then__base64", make_chain noop base64_std),
   ("noop__then__base64_urlsafe", make_chain noop base64_urlsafe),
   ("noop__then__base64_nopad", make_chain noop base64_nopad),
   ("base64__then__base64_urlsafe", make_chain base64_std base64_urlsafe),
   ("base64__then__base64_nopad", make_chain base64_std base64_nopad),
   ("base64__then__hex_lower", make_chain base64_std hex_lower),
   ("base64_urlsafe__then__base64_nopad", make_chain base64_urlsafe base64_nopad),
   ("base64_urlsafe__then__hex_lower", make_chain base64_urlsafe hex_lower),
   ("base64_urlsafe__then__hex_upper", make_chain base64_urlsafe hex_upper),
   ("base64_nopad__then__hex_lower", make_chain base64_nopad hex_lower),
   ("base64_nopad__then__hex_upper", make_chain base64_nopad hex_upper),
   ("base64_nopad__then__backslash_x", make_chain base64_nopad backslash_x),
   ("hex_lower__then__hex_upper", make_chain hex_lower hex_upper),
   ("hex_lower__then__backslash_x", make_chain hex_lower backslash_x),
   ("hex_lower__then__url_all", make_chain hex_lower url_encode_all),
   ("hex_upper__then__backslash_x", make_chain hex_upper backslash_x),
   ("hex_upper__then__url_all", make_chain hex_upper url_encode_all),
   ("hex_upper__then__url_safe_slash", make_chain hex_upper url_encode_safe_slash),
   ("backslash_x__then__url_all", make_chain backslash_x url_encode_all),
   ("backslash_x__then__url_safe_slash", make_chain backslash_x url_encode_safe_slash),
   ("backslash_x__then__double_url", make_chain backslash_x double_url),
   ("url_all__then__url_safe_slash", make_chain url_encode_all url_encode_safe_slash),
   ("url_all__then__double_url", make_chain url_encode_all double_url),
   ("url_all__then__html_named", make_chain url_encode_all html_escape_named),
   ("url_safe_slash__then__double_url", make_chain url_encode_safe_slash double_url),
   ("url_safe_slash__then__html_named", make_chain url_encode_safe_slash html_escape_named),
   ("url_safe_slash__then__html_num_dec", make_chain url_encode_safe_slash html_numeric_dec),
   ("double_url__then__html_named", make_chain double_url html_escape_named),
   ("double_url__then__html_num_dec", make_chain double_url html_numeric_dec),
   ("double_url__then__html_num_hex", make_chain double_url html_numeric_hex),
   ("html_named__then__html_num_dec", make_chain html_escape_named html_numeric_dec),
   ("html_named__then__html_num_hex", make_chain html_escape_named html_numeric_hex),
   ("html_named__then__unicode_escape", make_chain html_escape_named (unicode_escape_python p)),
   ("html_num_dec__then__html_num_hex", make_chain html_numeric_dec html_numeric_hex),
   ("html_num_dec__then__unicode_escape", make_chain html_numeric_dec (unicode_escape_python p)),
   ("html_num_dec__then__js_escape", make_chain html_numeric_dec js_escape),
   ("html_num_hex__then__unicode_escape", make_chain html_numeric_hex (unicode_escape_python p)),
   ("html_num_hex__then__js_escape", make_chain html_numeric_hex js_escape),
   ("html_num_hex__then__rot13", make_chain html_numeric_hex rot13),
   ("unicode_escape__then__js_escape", make_chain (unicode_escape_python p) js_escape),
   ("unicode_escape__then__rot13", make_chain (unicode_escape_python p) rot13),
   ("unicode_escape__then__rot47", make_chain (unicode_escape_python p) rot47),
   ("js_escape__then__rot13", make_chain js_escape rot13),
   ("js_escape__then__rot47", make_chain js_escape rot47),
   ("js_escape__then__gzip_base64", make_chain js_escape (gzip_base64 p)),
   ("rot13__then__rot47", make_chain rot13 rot47),
   ("rot13__then__gzip_base64", make_chain rot13 (gzip_base64 p)),
   ("rot13__then__zlib_base64", make_chain rot13 (zlib_base64 p)),
   ("rot47__then__gzip_base64", make_chain rot47 (gzip_base64 p)),
   ("rot47__then__zlib_base64", make_chain rot47 (zlib_base64 p)),
   ("rot47__then__bz2_base64", make_chain rot47 (bz2_base64 p)),
   ("gzip_base64__then__zlib_base64", make_chain (gzip_base64 p) (zlib_base64 p)),
   ("gzip_base64__then__bz2_base64", make_chain (gzip_base64 p) (bz2_base64 p)),
   ("gzip_base64__then__lzma_base64", make_chain (gzip_base64 p) (lzma_base64 p)),
   ("zlib_base64__then__bz2_base64", make_chain (zlib_base64 p) (bz2_base64 p)),
   ("zlib_base64__then__lzma_base64", make_chain (zlib_base64 p) (lzma_base64 p)),
   ("zlib_base64__then__base32", make_chain (zlib_base64 p) base32_std),
   ("bz2_base64__then__lzma_base64", make_chain (bz2_base64 p) (lzma_base64 p)),
   ("bz2_base64__then__base32", make_chain (bz2_base64 p) base32_std),
   ("bz2_base64__then__base85", make_chain (bz2_base64 p) base85_std),
   ("lzma_base64__then__base32", make_chain (lzma_base64 p) base32_std),
   ("lzma_base64__then__base85", make_chain (lzma_base64 p) base85_std),
   ("lzma_base64__then__ascii85", make_chain (lzma_base64 p) ascii85_std),
   ("base32__then__base85", make_chain base32_std base85_std),
   ("base32__then__ascii85", make_chain base32_std ascii85_std),
   ("base32__then__quoted_printable", make_chain base32_std (quoted_printable p)),
   ("base85__then__ascii85", make_chain base85_std ascii85_std),
   ("base85__then__quoted_printable", make_chain base85_std (quoted_printable p)),
   ("base85__then__punycode", make_chain base85_std (punycode p)),
   ("ascii85__then__quoted_printable", make_chain ascii85_std (quoted_printable p)),
   ("ascii85__then__punycode", make_chain ascii85_std (punycode p)),
   ("ascii85__then__base64_custom_chars", make_chain ascii85_std base64_custom_chars),
   ("quoted_printable__then__punycode", make_chain (quoted_printable p) (punycode p)),
   ("quoted_printable__then__base64_custom_chars", make_chain (quoted_printable p) base64_custom_chars),
   ("quoted_printable__then__base64_dot_pad", make_chain (quoted_printable p) base64_dot_pad),
   ("punycode__then__base64_custom_chars", make_chain (punycode p) base64_custom_chars),
   ("punycode__then__base64_dot_pad", make_chain (punycode p) base64_dot_pad),
   ("punycode__then__hex_colon", make_chain (punycode p) hex_colon),
   ("base64_custom_chars__then__base64_dot_pad", make_chain base64_custom_chars base64_dot_pad),
   ("base64_custom_chars__then__hex_colon", make_chain base64_custom_chars hex_colon),
   ("base64_custom_chars__then__hex_space", make_chain base64_custom_chars hex_space),
   ("base64_dot_pad__then__hex_colon", make_chain base64_dot_pad hex_colon),
   ("base64_dot_pad__then__hex_space", make_chain base64_dot_pad hex_space),
   ("base64_dot_pad__then__hex_reverse", make_chain base64_dot_pad hex_reverse),
   ("hex_colon__then__hex_space", make_chain hex_colon hex_space),
   ("hex_colon__then__hex_reverse", make_chain hex_colon hex_reverse),
   ("hex_colon__then__rot5_digits", make_chain hex_colon rot5_digits),
   ("hex_space__then__hex_reverse", make_chain hex_space hex_reverse),
   ("hex_space__then__rot5_digits", make_chain hex_space rot5_digits),
   ("hex_space__then__rot13_base64", make_chain hex_space rot13_base64)]

/-- The names of the registry before the chain pass, in registration order. -/
def preRegistryNames : List String :=
  ["noop", "base64", "base64_urlsafe", "base64_nopad", "hex_lower", "hex_upper", "backslash_x",
   "url_all", "url_safe_slash", "double_url", "html_named", "html_num_dec", "html_num_hex",
   "unicode_escape", "js_escape", "rot13", "rot47", "gzip_base64", "zlib_base64", "bz2_base64",
   "lzma_base64", "base32", "base85", "ascii85", "quoted_printable", "punycode",
   "base64_custom_chars", "base64_dot_pad", "hex_colon", "hex_space", "hex_reverse",
   "rot5_digits", "rot13_base64", "base64_mime", "url_encode_plus", "url_decode",
   "html_escape_num_only", "hex_0x_prefix", "unicode_escape_upper", "shuffle_string", "repeat_2x",
   "repeat_3x", "prefix_enc", "suffix_end", "reverse_string", "reverse_bytes_hex",
   "utf16le_bom_base64", "utf16be_bom_base64", "zlib_max_base64", "gzip_max_base64",
   "ascii_codes_dash", "ascii_codes_to_hex", "base64_no_pad", "base85_rot13", "base32_no_pad",
   "remove_whitespace", "unicode_codepoints_space", "escape_quotes", "escape_apostrophes",
   "base64_replace_a", "qp_custom", "hex_then_base64", "base64_then_hex", "zlib_then_hex",
   "lzma_then_hex", "utf8_hex", "utf8_base64", "utf8_percent", "latin1_hex", "latin1_base64",
   "latin1_percent", "cp1251_hex", "cp1251_base64", "cp1251_percent", "cp1252_hex",
   "cp1252_base64", "cp1252_percent", "utf16le_hex", "utf16le_base64", "utf16le_percent",
   "utf16be_hex", "utf16be_base64", "utf16be_percent", "utf7_hex", "utf7_base64", "utf7_percent",
   "url_pct_lower", "percent_bytes_lower", "double_url_2x", "double_url_3x", "double_url_4x",
   "double_url_5x"]


/-- The registration-order names of the pre-chain registry. -/
def preChainNames (p : PyPrims) : List String :=
  (TRANSFORMS_beforeChains p).map (fun kv => kv.1)


/-- The (encoding, representation) pairs the generator loop enumerates. -/
def genPairs : List (String × String) :=
  BYTE_ENCODINGS.flatMap (fun enc =>
    (["hex", "base64", "percent"] : List String).map (fun out => (enc, out)))


/-- The pre-chain registry in explicit form. -/
def beforeChainsExplicit (p : PyPrims) : List (String × Transform) :=
  TRANSFORMS_base p ++ genEntriesExplicit p
    ++ [("url_pct_lower", url_pct_lower), ("percent_bytes_lower", percent_bytes_lower)]
    ++ dblEntriesExplicit

/-- The registry in explicit form: the literal dict, the generated family,
the two percent helpers, the double_url family and the chains, concatenated
in registration order. -/
def explicitRegistry (p : PyPrims) : List (String × Transform) :=
  beforeChainsExplicit p ++ chainEntriesExplicit p

/-- The build up to the chain pass produces exactly the explicit pre-chain
entries (reversed, as the build holds them). -/
theorem beforeChainsRev_eq (p : PyPrims) :
    TRANSFORMS_beforeChainsRev p = (beforeChainsExplicit p).reverse := rfl

/-- The chain pass over the explicit pre-chain entries produces exactly the
explicit chain entries (reversed, as the build holds them). -/
theorem addChains_explicit (p : PyPrims) :
    addChains (beforeChainsExplicit p) ((beforeChainsExplicit p).reverse)
      = (beforeChainsExplicit p ++ chainEntriesExplicit p).reverse := rfl

/-- The registry build produces exactly the explicit registry. -/
theorem TRANSFORMS_eq (p : PyPrims) : TRANSFORMS p = explicitRegistry p := by
  show (addChains ((TRANSFORMS_beforeChainsRev p).reverse) (TRANSFORMS_beforeChainsRev p)).reverse
    = explicitRegistry p
  rw [beforeChainsRev_eq, List.reverse_reverse, addChains_explicit, List.reverse_reverse]
  rfl



/-- The registration-order names of the finished registry. -/
theorem registry_names (p : PyPrims) :
    (TRANSFORMS p).map (fun kv => kv.1) = allRegistryNames := by
  rw [TRANSFORMS_eq]; rfl

/-- The pre-chain names are the 92 listed ones. -/
theorem preChainNames_eq (p : PyPrims) : preChainNames p = preRegistryNames := by
  show ((TRANSFORMS_beforeChainsRev p).reverse).map (fun kv => kv.1) = preRegistryNames
  rw [beforeChainsRev_eq, List.reverse_reverse]
  rfl

/-- No name is registered twice during the build. -/
theorem allRegistryNames_nodup : allRegistryNames.Nodup := by decide

/-- A key that occurs among the keys of an association list can be looked
up. -/
theorem lookup_isSome_of_mem_keys {d : List (String × A)} {k : String}
    (h : k ∈ d.map (fun kv => kv.1)) : ∃ v, d.lookup k = some v := by
  induction d with
  | nil => simp at h
  | cons kv rest ih =>
    obtain ⟨k1, v1⟩ := kv
    simp only [List.map_cons, List.mem_cons] at h
    by_cases hk : k = k1
    · refine ⟨v1, ?_⟩
      rw [List.lookup_cons]
      have hb : (k == k1) = true := by simp [hk]
      rw [hb]
    · obtain ⟨v, hv⟩ := ih (h.resolve_left hk)
      refine ⟨v, ?_⟩
      rw [List.lookup_cons]
      have hb : (k == k1) = false := by simp [hk]
      rw [hb]
      exact hv

/-! ## Supporting lemmas for the claims -/

/-- Total: any two strings compare in at least one direction. -/
theorem charListLe_total : ∀ xs ys : List Char,
    charListLe xs ys = true ∨ charListLe ys xs = true
  | [], _ => Or.inl rfl
  | _ :: _, [] => Or.inr rfl
  | x :: xs, y :: ys => by
    unfold charListLe
    by_cases h1 : x.toNat < y.toNat
    · left; rw [if_pos h1]
    · by_cases h2 : y.toNat < x.toNat
      · right; rw [if_pos h2]
      · rw [if_neg h1, if_neg h2, if_neg h2, if_neg h1]
        exact charListLe_total xs ys

/-- Transitive: code-point comparison chains. -/
theorem charListLe_trans : ∀ xs ys zs : List Char,
    charListLe xs ys = true → charListLe ys zs = true → charListLe xs zs = true
  | [], _, _ => by intro _ _; rfl
  | _ :: _, [], _ => by intro h _; simp [charListLe] at h
  | _ :: _, _ :: _, [] => by intro _ h; simp [charListLe] at h
  | x :: xs, y :: ys, z :: zs => by
    intro h1 h2
    unfold charListLe at h1 h2 ⊢
    by_cases axy : x.toNat < y.toNat
    · by_cases ayz : y.toNat < z.toNat
      · rw [if_pos (Nat.lt_trans axy ayz)]
      · by_cases azy : z.toNat < y.toNat
        · rw [if_neg ayz, if_pos azy] at h2; exact absurd h2 (by simp)
        · have hyz : y.toNat = z.toNat := by omega
          rw [if_pos (hyz ▸ axy)]
    · by_cases ayx : y.toNat < x.toNat
      · rw [if_neg axy, if_pos ayx] at h1; exact absurd h1 (by simp)
      · have hxy : x.toNat = y.toNat := by omega
        rw [if_neg axy, if_neg ayx] at h1
        by_cases ayz : y.toNat < z.toNat
        · rw [if_pos (hxy ▸ ayz)]
        · by_cases azy : z.toNat < y.toNat
          · rw [if_neg ayz, if_pos azy] at h2; exact absurd h2 (by simp)
          · have hyz : y.toNat = z.toNat := by omega
            rw [if_neg ayz, if_neg azy] at h2
            rw [if_neg (by omega : ¬ x.toNat < z.toNat),
              if_neg (by omega : ¬ z.toNat < x.toNat)]
            exact charListLe_trans xs ys zs h1 h2

/-- Every unicode scalar value is below 0x110000. -/
theorem char_toNat_lt (c : Char) : c.toNat < 1114112 := by
  rcases c.valid with h | ⟨_, h⟩
  · exact Nat.lt_trans h (by decide)
  · exact h

/-- Every UTF-8 byte is below 256. -/
theorem utf8EncodeNat_lt_256 {v b : Nat} (hv : v < 1114112) (hb : b ∈ utf8EncodeNat v) :
    b < 256 := by
  unfold utf8EncodeNat at hb
  split_ifs at hb with h1 h2 h3
  · simp only [List.mem_singleton] at hb; omega
  · simp only [List.mem_cons, List.not_mem_nil, or_false] at hb
    rcases hb with rfl | rfl <;> omega
  · simp only [List.mem_cons, List.not_mem_nil, or_false] at hb
    rcases hb with rfl | rfl | rfl <;> omega
  · simp only [List.mem_cons, List.not_mem_nil, or_false] at hb
    rcases hb with rfl | rfl | rfl | rfl <;> omega

/-- Every byte of the UTF-8 encoding of a string is below 256. -/
theorem utf8Encode_lt_256 {s : String} {b : Nat} (hb : b ∈ utf8Encode s) : b < 256 := by
  unfold utf8Encode at hb
  simp only [List.mem_flatMap] at hb
  obtain ⟨c, _, hbc⟩ := hb
  exact utf8EncodeNat_lt_256 (char_toNat_lt c) hbc

/-- Hexlify output consists of ASCII bytes when the input is made of bytes. -/
theorem decodeAscii_hexlify {bs : List Nat} (h : ∀ b ∈ bs, b < 256) :
    decodeAscii (hexlifyBytes bs)
      = Except.ok (String.mk ((hexlifyBytes bs).map Char.ofNat)) := by
  unfold decodeAscii
  rw [if_pos ?_]
  induction bs with
  | nil => rfl
  | cons b rest ih =>
    have hb := h b (List.mem_cons_self _ _)
    have hrest := ih (fun x hx => h x (List.mem_cons_of_mem _ hx))
    simp only [hexlifyBytes, List.flatMap_cons, List.all_append, List.all_cons, List.all_nil,
      Bool.and_true, Bool.and_eq_true, decide_eq_true_eq] at hrest ⊢
    refine ⟨⟨?_, ?_⟩, hrest⟩ <;> unfold hexLowerDigit <;> split_ifs <;> omega

/-! ## The claims -/

/-- C1: for every name registered in the transform registry and for every
text input, applying that name's transform via the facade returns a text
value and never surfaces a transform-internal failure to the caller; an entry
whose transform raises is replaced by its original payload unchanged. -/
theorem spec_c1_facade_totality (p : PyPrims) (name : String)
    (entries : List (List (String × String)))
    (h : name ∈ (TRANSFORMS p).map (fun kv => kv.1)) :
    ∃ f outs, (TRANSFORMS p).lookup name = some f ∧
      transform_payloads p entries name = Except.ok outs ∧
      outs = entries.map (fun entry =>
        match f ((entry.lookup "payload").getD "") with
        | Except.ok t => t
        | Except.error _ => (entry.lookup "payload").getD "") ∧
      ∀ s e, f s = Except.error e →
        (match f s with
         | Except.ok t => t
         | Except.error _ => s) = s := by
  obtain ⟨f, hf⟩ := lookup_isSome_of_mem_keys h
  refine ⟨f, entries.map (fun entry =>
      match f ((entry.lookup "payload").getD "") with
      | Except.ok t => t
      | Except.error _ => (entry.lookup "payload").getD ""), hf, ?_, rfl, ?_⟩
  · unfold transform_payloads
    rw [hf]
  · intro s e he
    rw [he]

/-- Closed instance of the C1 theorem at the base64 transform on one entry. -/
theorem spec_c1_witness :
    ("base64" ∈ (TRANSFORMS defaultPrims).map (fun kv => kv.1)) ∧
    (∃ f outs, (TRANSFORMS defaultPrims).lookup "base64" = some f ∧
      transform_payloads defaultPrims [[("payload", "abc")]] "base64" = Except.ok outs ∧
      outs = [[("payload", "abc")]].map (fun entry =>
        match f ((entry.lookup "payload").getD "") with
        | Except.ok t => t
        | Except.error _ => (entry.lookup "payload").getD "") ∧
      ∀ s e, f s = Except.error e →
        (match f s with
         | Except.ok t => t
         | Except.error _ => s) = s) :=
  ⟨by rw [registry_names]; decide,
   spec_c1_facade_totality defaultPrims "base64" [[("payload", "abc")]]
     (by rw [registry_names]; decide)⟩

/-- C2: the facade maps base64 of abc to YWJj, rot13 of abc to nop, hex_lower
of AB to 4142, url_all of a b to a%20b, and an absent name to the
unknown-transform error. -/
theorem spec_c2_scenario (p : PyPrims) :
    transform_payloads p [[("payload", "abc")]] "base64" = Except.ok ["YWJj"] ∧
    transform_payloads p [[("payload", "abc")]] "rot13" = Except.ok ["nop"] ∧
    transform_payloads p [[("payload", "AB")]] "hex_lower" = Except.ok ["4142"] ∧
    transform_payloads p [[("payload", "a b")]] "url_all" = Except.ok ["a%20b"] ∧
    transform_payloads p [[("payload", "x")]] "unknown_name"
      = Except.error PyErr.unknownTransform := by
  unfold transform_payloads
  rw [TRANSFORMS_eq]
  exact ⟨rfl, rfl, rfl, rfl, rfl⟩

/-- C3: a chained transform returns second(first(s)) when both steps succeed,
and the original input s unchanged (never a partial value) when either step
raises. -/
theorem spec_c3_chain_fallback (f1 f2 : Transform) (s : String) :
    (((∃ e, f1 s = Except.error e) ∨
        (∃ t e, f1 s = Except.ok t ∧ f2 t = Except.error e)) →
      make_chain f1 f2 s = Except.ok s) ∧
    (∀ t u, f1 s = Except.ok t → f2 t = Except.ok u →
      make_chain f1 f2 s = Except.ok u) := by
  constructor
  · rintro (⟨e, he⟩ | ⟨t, e, ht, he⟩)
    · simp only [make_chain, he]
    · simp only [make_chain, ht, he]
  · intro t u ht hu
    simp only [make_chain, ht, hu]

/-- Closed instance of the C3 theorem: a failing first step makes the chain
return the original input. -/
theorem spec_c3_witness :
    make_chain (fun _ => Except.error PyErr.transformFailure)
      (fun t => Except.ok t) "x" = Except.ok "x" :=
  (spec_c3_chain_fallback (fun _ => Except.error PyErr.transformFailure)
    (fun t => Except.ok t) "x").1 (Or.inl ⟨PyErr.transformFailure, rfl⟩)

/-- C4: the generated transforms capture their own encoding parameters: the
registry binds latin1_hex and cp1251_hex to the generator applied to latin1
and cp1251 respectively, and on the Cyrillic capital A (which the two
encodings encode differently) the two transforms produce different outputs
(3f, the replacement question mark, against c0). -/
theorem spec_c4_generator_capture (p : PyPrims) :
    applyT p "latin1_hex" "А" = some (Except.ok "3f") ∧
    applyT p "cp1251_hex" "А" = some (Except.ok "c0") ∧
    applyT p "latin1_hex" "А" ≠ applyT p "cp1251_hex" "А" ∧
    (TRANSFORMS p).lookup "latin1_hex" = some (make_bytes_transform p "latin1" "hex") ∧
    (TRANSFORMS p).lookup "cp1251_hex" = some (make_bytes_transform p "cp1251" "hex") := by
  unfold applyT
  rw [TRANSFORMS_eq]
  refine ⟨rfl, rfl, ?_, rfl, rfl⟩
  intro hc
  have hc' : (some (Except.ok "3f") : Option (Except PyErr String))
      = some (Except.ok "c0") := hc
  exact absurd (Except.ok.inj (Option.some.inj hc')) (by decide)

/-- C5: the generator family is the full cross product: the 21 pair names
follow the punctuation-stripping naming rule, are pairwise distinct, and each
occurs exactly once in the registry, bound to the generator applied to
exactly that pair. -/
theorem spec_c5_generated_family (p : PyPrims) :
    genPairs.map (fun eo => genName eo.1 eo.2) =
      ["utf8_hex", "utf8_base64", "utf8_percent", "latin1_hex", "latin1_base64",
       "latin1_percent", "cp1251_hex", "cp1251_base64", "cp1251_percent", "cp1252_hex",
       "cp1252_base64", "cp1252_percent", "utf16le_hex", "utf16le_base64", "utf16le_percent",
       "utf16be_hex", "utf16be_base64", "utf16be_percent", "utf7_hex", "utf7_base64",
       "utf7_percent"] ∧
    (genPairs.map (fun eo => genName eo.1 eo.2)).Nodup ∧
    genPairs.length = 21 ∧
    ∀ eo ∈ genPairs,
      ((TRANSFORMS p).map (fun kv => kv.1)).count (genName eo.1 eo.2) = 1 ∧
      (TRANSFORMS p).lookup (genName eo.1 eo.2)
        = some (make_bytes_transform p eo.1 eo.2) := by
  refine ⟨by decide, by decide, by decide, ?_⟩
  intro eo heo
  fin_cases heo <;>
    exact ⟨by rw [registry_names]; decide, by rw [TRANSFORMS_eq]; rfl⟩

/-- Closed instance of the C5 theorem at the utf-8 and hex pair. -/
theorem spec_c5_witness :
    ((TRANSFORMS defaultPrims).map (fun kv => kv.1)).count (genName "utf-8" "hex") = 1 ∧
    (TRANSFORMS defaultPrims).lookup (genName "utf-8" "hex")
      = some (make_bytes_transform defaultPrims "utf-8" "hex") :=
  (spec_c5_generated_family defaultPrims).2.2.2 ("utf-8", "hex") (by decide)

/-- C6: the chain pass pairs the first 30 registration-order names, each at
position i with the names at positions i+1, i+2, i+3, registering exactly
those pairs (and nothing else) under first__then__second, and never pairs a
name with itself. -/
theorem spec_c6_chain_window (p : PyPrims) :
    ((TRANSFORMS p).map (fun kv => kv.1)
      = preChainNames p ++ (List.range 30).flatMap (fun i =>
          (List.range' (i + 1) 3).map (fun j =>
            (preChainNames p).getD i "" ++ "__then__" ++ (preChainNames p).getD j ""))) ∧
    ∀ i ∈ List.range 30, ∀ j ∈ List.range' (i + 1) 3,
      (preChainNames p).getD i "" ≠ (preChainNames p).getD j "" := by
  rw [registry_names, preChainNames_eq]
  exact ⟨by decide, by decide⟩

/-- Closed instance of the C6 theorem at the first window position. -/
theorem spec_c6_witness :
    (preChainNames defaultPrims).getD 0 "" ≠ (preChainNames defaultPrims).getD 1 "" :=
  (spec_c6_chain_window defaultPrims).2 0 (by decide) 1 (by decide)

/-- C8: the listing facade returns the identical sorted listing on every run
(for any two instantiations of the library primitives), the listing is
lexicographically sorted under the code-point order, and it is a permutation
of the complete set of registered names. -/
theorem spec_c8_list_sorted (p q : PyPrims) :
    list_transforms p = list_transforms q ∧
    List.Pairwise (fun a b => pyStrLe a b = true) (list_transforms p) ∧
    (list_transforms p).Perm ((TRANSFORMS p).map (fun kv => kv.1)) := by
  refine ⟨?_, ?_, ?_⟩
  · unfold list_transforms
    rw [registry_names, registry_names]
  · unfold list_transforms
    haveI : IsTotal String (fun a b => pyStrLe a b = true) :=
      ⟨fun a b => charListLe_total a.data b.data⟩
    haveI : IsTrans String (fun a b => pyStrLe a b = true) :=
      ⟨fun a b c h1 h2 => charListLe_trans a.data b.data c.data h1 h2⟩
    exact List.sorted_insertionSort _ _
  · unfold list_transforms
    exact List.perm_insertionSort _ _

/-- C9: base64_nopad and base64_no_pad are two distinct registered names whose
transforms agree on every input (base64 of the UTF-8 bytes with the trailing
padding stripped). -/
theorem spec_c9_base64_nopad_aliases (p : PyPrims) (s : String) :
    (TRANSFORMS p).lookup "base64_nopad" = some base64_nopad ∧
    (TRANSFORMS p).lookup "base64_no_pad" = some base64_no_pad ∧
    ("base64_nopad" : String) ≠ "base64_no_pad" ∧
    base64_nopad s = base64_no_pad s := by
  rw [TRANSFORMS_eq]
  exact ⟨rfl, rfl, by decide, rfl⟩

/-- C10: the hand-written hex_lower and the generated utf8_hex are
extensionally equal: the registry binds them to the two definitions, and on
every input the generated transform (whose error branch never fires, since
hex output is ASCII) returns exactly the lowercase hex of the UTF-8 bytes. -/
theorem spec_c10_hex_lower_utf8_hex (p : PyPrims) (s : String) :
    (TRANSFORMS p).lookup "hex_lower" = some hex_lower ∧
    (TRANSFORMS p).lookup "utf8_hex" = some (make_bytes_transform p "utf-8" "hex") ∧
    make_bytes_transform p "utf-8" "hex" s = hex_lower s := by
  refine ⟨by rw [TRANSFORMS_eq]; rfl, by rw [TRANSFORMS_eq]; rfl, ?_⟩
  show pyTry s (decodeAscii (hexlifyBytes (utf8Encode s))) = hex_lower s
  have hrw := @decodeAscii_hexlify (utf8Encode s) (fun b hb => utf8Encode_lt_256 hb)
  unfold hex_lower
  rw [hrw]
  rfl

/-! ## Lemmas for the URL round trip (C7) -/

/-- Packing a valid scalar value into a character preserves the value. -/
theorem charToNat_ofNat {n : Nat} (h : n.isValidChar) : (Char.ofNat n).toNat = n := by
  simp only [Char.ofNat, dif_pos h, Char.ofNatAux, Char.toNat]
  rfl

/-- Packing the scalar value of a character gives the character back. -/
theorem charOfNat_toNat (c : Char) : Char.ofNat c.toNat = c := by
  have h : c.toNat.isValidChar := c.valid
  apply Char.eq_of_val_eq
  simp only [Char.ofNat, dif_pos h, Char.ofNatAux]
  apply UInt32.eq_of_toBitVec_eq
  apply BitVec.eq_of_toNat_eq
  simp [Char.toNat, UInt32.toNat]

/-- Decoding an ASCII byte. -/
theorem utf8DecodeAux_one {b : Nat} (rest : List Nat) (h : b < 128) :
    utf8DecodeAux (b :: rest) = Char.ofNat b :: utf8DecodeAux rest := by
  simp only [utf8DecodeAux, if_pos h]

/-- Decoding a well-formed two-byte sequence. -/
theorem utf8DecodeAux_two {b b2 : Nat} (rest : List Nat)
    (h1 : 194 ≤ b) (h2 : b ≤ 223) (h3 : 128 ≤ b2) (h4 : b2 ≤ 191) :
    utf8DecodeAux (b :: b2 :: rest)
      = Char.ofNat ((b - 192) * 64 + (b2 - 128)) :: utf8DecodeAux rest := by
  simp only [utf8DecodeAux, List.headD_cons, List.tail_cons,
    if_neg (show ¬ b < 128 by omega),
    if_pos (show 194 ≤ b ∧ b ≤ 223 from ⟨h1, h2⟩),
    if_pos (show 128 ≤ b2 ∧ b2 ≤ 191 from ⟨h3, h4⟩)]

/-- Decoding a well-formed three-byte sequence. -/
theorem utf8DecodeAux_three {b b2 b3 : Nat} (rest : List Nat)
    (hA : 224 ≤ b) (hB : b ≤ 239)
    (hc2 : (utf8Cont2Range b).1 ≤ b2 ∧ b2 ≤ (utf8Cont2Range b).2)
    (h3a : 128 ≤ b3) (h3b : b3 ≤ 191) :
    utf8DecodeAux (b :: b2 :: b3 :: rest)
      = Char.ofNat ((b - 224) * 4096 + (b2 - 128) * 64 + (b3 - 128)) :: utf8DecodeAux rest := by
  simp only [utf8DecodeAux, List.headD_cons, List.tail_cons,
    if_neg (show ¬ b < 128 by omega),
    if_neg (show ¬ (194 ≤ b ∧ b ≤ 223) by omega),
    if_pos (show 224 ≤ b ∧ b ≤ 239 from ⟨hA, hB⟩), if_pos hc2,
    if_pos (show 128 ≤ b3 ∧ b3 ≤ 191 from ⟨h3a, h3b⟩)]

/-- Decoding a well-formed four-byte sequence. -/
theorem utf8DecodeAux_four {b b2 b3 b4 : Nat} (rest : List Nat)
    (hA : 240 ≤ b) (hB : b ≤ 244)
    (hc2 : (utf8Cont2Range b).1 ≤ b2 ∧ b2 ≤ (utf8Cont2Range b).2)
    (h3a : 128 ≤ b3) (h3b : b3 ≤ 191) (h4a : 128 ≤ b4) (h4b : b4 ≤ 191) :
    utf8DecodeAux (b :: b2 :: b3 :: b4 :: rest)
      = Char.ofNat ((b - 240) * 262144 + (b2 - 128) * 4096 + (b3 - 128) * 64 + (b4 - 128))
          :: utf8DecodeAux rest := by
  simp only [utf8DecodeAux, List.headD_cons, List.tail_cons,
    if_neg (show ¬ b < 128 by omega),
    if_neg (show ¬ (194 ≤ b ∧ b ≤ 223) by omega),
    if_neg (show ¬ (224 ≤ b ∧ b ≤ 239) by omega),
    if_pos (show 240 ≤ b ∧ b ≤ 244 from ⟨hA, hB⟩), if_pos hc2,
    if_pos (show 128 ≤ b3 ∧ b3 ≤ 191 from ⟨h3a, h3b⟩),
    if_pos (show 128 ≤ b4 ∧ b4 ≤ 191 from ⟨h4a, h4b⟩)]

/-- Decoding the UTF-8 bytes of one character consumes exactly that
character. -/
theorem utf8DecodeAux_encodeChar (c : Char) (rest : List Nat) :
    utf8DecodeAux (utf8EncodeNat c.toNat ++ rest) = c :: utf8DecodeAux rest := by
  have hofnat : Char.ofNat c.toNat = c := charOfNat_toNat c
  have hval : c.toNat < 55296 ∨ (57343 < c.toNat ∧ c.toNat < 1114112) := c.valid
  set v := c.toNat with hvdef
  by_cases hA : v < 128
  · rw [show utf8EncodeNat v = [v] from by unfold utf8EncodeNat; rw [if_pos hA]]
    simp only [List.cons_append, List.nil_append]
    rw [utf8DecodeAux_one _ hA, hofnat]
  · by_cases hB : v < 2048
    · rw [show utf8EncodeNat v = [192 + v / 64, 128 + v % 64] from by
        unfold utf8EncodeNat; rw [if_neg hA, if_pos hB]]
      simp only [List.cons_append, List.nil_append]
      rw [utf8DecodeAux_two _ (by omega) (by omega) (by omega) (by omega)]
      rw [show (192 + v / 64 - 192) * 64 + (128 + v % 64 - 128) = v by omega, hofnat]
    · by_cases hC : v < 65536
      · rw [show utf8EncodeNat v = [224 + v / 4096, 128 + v / 64 % 64, 128 + v % 64] from by
          unfold utf8EncodeNat; rw [if_neg hA, if_neg hB, if_pos hC]]
        simp only [List.cons_append, List.nil_append]
        have hc2 : (utf8Cont2Range (224 + v / 4096)).1 ≤ 128 + v / 64 % 64 ∧
            128 + v / 64 % 64 ≤ (utf8Cont2Range (224 + v / 4096)).2 := by
          unfold utf8Cont2Range
          by_cases hE0 : v / 4096 = 0
          · rw [if_pos (by omega)]
            exact ⟨by omega, by omega⟩
          · by_cases hED : v / 4096 = 13
            · rw [if_neg (by omega), if_pos (by omega)]
              rcases hval with hv | hv <;> exact ⟨by omega, by omega⟩
            · rw [if_neg (by omega), if_neg (by omega), if_neg (by omega), if_neg (by omega)]
              exact ⟨by omega, by omega⟩
        rw [utf8DecodeAux_three _ (by omega) (by omega) hc2 (by omega) (by omega)]
        rw [show (224 + v / 4096 - 224) * 4096 + (128 + v / 64 % 64 - 128) * 64
            + (128 + v % 64 - 128) = v by omega, hofnat]
      · rw [show utf8EncodeNat v
            = [240 + v / 262144, 128 + v / 4096 % 64, 128 + v / 64 % 64, 128 + v % 64] from by
          unfold utf8EncodeNat; rw [if_neg hA, if_neg hB, if_neg hC]]
        simp only [List.cons_append, List.nil_append]
        have hv' : v < 1114112 := by
          rcases hval with hv | hv
          · omega
          · exact hv.2
        have hc2 : (utf8Cont2Range (240 + v / 262144)).1 ≤ 128 + v / 4096 % 64 ∧
            128 + v / 4096 % 64 ≤ (utf8Cont2Range (240 + v / 262144)).2 := by
          unfold utf8Cont2Range
          by_cases hF0 : v / 262144 = 0
          · rw [if_neg (by omega), if_neg (by omega), if_pos (by omega)]
            exact ⟨by omega, by omega⟩
          · by_cases hF4 : v / 262144 = 4
            · rw [if_neg (by omega), if_neg (by omega), if_neg (by omega), if_pos (by omega)]
              exact ⟨by omega, by omega⟩
            · rw [if_neg (by omega), if_neg (by omega), if_neg (by omega), if_neg (by omega)]
              exact ⟨by omega, by omega⟩
        rw [utf8DecodeAux_four _ (by omega) (by omega) hc2 (by omega) (by omega)
          (by omega) (by omega)]
        rw [show (240 + v / 262144 - 240) * 262144 + (128 + v / 4096 % 64 - 128) * 4096
            + (128 + v / 64 % 64 - 128) * 64 + (128 + v % 64 - 128) = v by omega, hofnat]

/-- Decoding inverts encoding on whole character lists. -/
theorem utf8DecodeAux_flat : ∀ cs : List Char,
    utf8DecodeAux (cs.flatMap (fun c => utf8EncodeNat c.toNat)) = cs
  | [] => by simp only [List.flatMap_nil, utf8DecodeAux]
  | c :: cs => by
    simp only [List.flatMap_cons]
    rw [utf8DecodeAux_encodeChar, utf8DecodeAux_flat cs]

/-- Decoding inverts encoding on strings. -/
theorem utf8decode_encode (s : String) : utf8DecodeAux (utf8Encode s) = s.data :=
  utf8DecodeAux_flat s.data

/-- A safe byte is ASCII. -/
theorem alwaysSafe_lt_128 {b : Nat} (h : alwaysSafeByte b = true) : b < 128 := by
  unfold alwaysSafeByte at h
  simp only [Bool.or_eq_true, Bool.and_eq_true, decide_eq_true_eq, beq_iff_eq] at h
  omega

/-- Quoting a safe byte keeps it. -/
theorem quoteByte_nil_safe {b : Nat} (h : alwaysSafeByte b = true) :
    quoteByteBytes [] b = [b] := by
  unfold quoteByteBytes
  rw [if_pos (by simp [h])]

/-- Quoting an unsafe byte escapes it. -/
theorem quoteByte_nil_escaped {b : Nat} (h : alwaysSafeByte b = false) :
    quoteByteBytes [] b = [37, hexUpperDigit (b / 16), hexUpperDigit (b % 16)] := by
  unfold quoteByteBytes
  rw [if_neg (by simp [h])]

/-- The hex-digit table recovers the value of an uppercase hex digit. -/
theorem hexValByte_hexUpper {n : Nat} (h : n < 16) :
    hexValByte (hexUpperDigit n) = some n := by
  unfold hexValByte hexUpperDigit
  by_cases h10 : n < 10
  · rw [if_pos h10, if_pos (show 48 ≤ 48 + n ∧ 48 + n ≤ 57 by omega)]
    exact congrArg some (by omega)
  · rw [if_neg h10, if_neg (show ¬ (48 ≤ 55 + n ∧ 55 + n ≤ 57) by omega),
      if_pos (show 65 ≤ 55 + n ∧ 55 + n ≤ 70 by omega)]
    exact congrArg some (by omega)

/-- Percent-decoding inverts percent-quoting at the byte level. -/
theorem unquote_quote_bytes : ∀ {bs : List Nat}, (∀ b ∈ bs, b < 256) →
    unquoteToBytes (bs.flatMap (quoteByteBytes [])) = bs
  | [], _ => by simp only [List.flatMap_nil, unquoteToBytes]
  | b :: rest, h => by
    have hb : b < 256 := h b (List.mem_cons_self _ _)
    have ihr := unquote_quote_bytes (fun x hx => h x (List.mem_cons_of_mem _ hx))
    simp only [List.flatMap_cons]
    by_cases hsafe : alwaysSafeByte b = true
    · rw [quoteByte_nil_safe hsafe]
      simp only [List.singleton_append]
      have hb37 : ¬ b = 37 := by
        intro he
        rw [he] at hsafe
        exact absurd hsafe (by decide)
      rw [unquoteToBytes.eq_2, if_neg hb37, ihr]
    · have hsafe' : alwaysSafeByte b = false := by
        cases hx : alwaysSafeByte b
        · rfl
        · exact absurd hx hsafe
      rw [quoteByte_nil_escaped hsafe']
      simp only [List.cons_append, List.nil_append]
      rw [unquoteToBytes.eq_2, if_pos rfl]
      rw [if_neg (show ¬ (hexUpperDigit (b / 16) :: hexUpperDigit (b % 16)
          :: rest.flatMap (quoteByteBytes [])).length < 2 by
        simp only [List.length_cons]; omega)]
      simp only [List.headD_cons, List.tail_cons]
      rw [hexValByte_hexUpper (show b / 16 < 16 by omega),
        hexValByte_hexUpper (show b % 16 < 16 by omega)]
      rw [if_pos (by simp)]
      simp only [Option.getD_some]
      rw [ihr]
      have hb' : 16 * (b / 16) + b % 16 = b := by omega
      rw [hb']

/-- All-safe byte lists quote to themselves. -/
theorem flatMap_quote_safe : ∀ {bs : List Nat}, (∀ b ∈ bs, alwaysSafeByte b = true) →
    bs.flatMap (quoteByteBytes []) = bs
  | [], _ => rfl
  | b :: rest, h => by
    simp only [List.flatMap_cons, quoteByte_nil_safe (h b (List.mem_cons_self _ _)),
      List.singleton_append]
    rw [flatMap_quote_safe (fun x hx => h x (List.mem_cons_of_mem _ hx))]

/-- Every byte of the quotation is ASCII. -/
theorem quote_bytes_lt_128 {bs : List Nat} (h : ∀ b ∈ bs, b < 256) :
    ∀ x ∈ bs.flatMap (quoteByteBytes []), x < 128 := by
  intro x hx
  simp only [List.mem_flatMap] at hx
  obtain ⟨b, hb, hxq⟩ := hx
  have hb2 : b < 256 := h b hb
  by_cases hsafe : alwaysSafeByte b = true
  · rw [quoteByte_nil_safe hsafe] at hxq
    simp only [List.mem_singleton] at hxq
    subst hxq
    exact alwaysSafe_lt_128 hsafe
  · have hsafe' : alwaysSafeByte b = false := by
      cases hx2 : alwaysSafeByte b
      · rfl
      · exact absurd hx2 hsafe
    rw [quoteByte_nil_escaped hsafe'] at hxq
    simp only [List.mem_cons, List.not_mem_nil, or_false] at hxq
    rcases hxq with rfl | rfl | rfl
    · omega
    · unfold hexUpperDigit; split_ifs <;> omega
    · unfold hexUpperDigit; split_ifs <;> omega

/-- Packing a small value keeps the value. -/
theorem toNat_ofNat_small {x : Nat} (h : x < 128) : (Char.ofNat x).toNat = x :=
  charToNat_ofNat (Or.inl (by omega))

/-- A character packed from an ASCII byte is ASCII. -/
theorem isAscii_ofNat {x : Nat} (h : x < 128) : isAsciiChar (Char.ofNat x) = true := by
  unfold isAsciiChar
  rw [toNat_ofNat_small h]
  simp only [decide_eq_true_eq]
  omega

/-- Unpacking inverts packing on ASCII byte lists. -/
theorem map_toNat_ofNat {xs : List Nat} (h : ∀ x ∈ xs, x < 128) :
    (xs.map Char.ofNat).map Char.toNat = xs := by
  rw [List.map_map]
  have hcongr : ∀ x ∈ xs, (Char.toNat ∘ Char.ofNat) x = id x :=
    fun x hx => toNat_ofNat_small (h x hx)
  rw [List.map_congr_left hcongr, List.map_id]

/-- If the quotation of s contains no percent sign, every UTF-8 byte of s is
safe. -/
theorem quote_all_safe_of_no_pct {s : String}
    (h : (pyQuote s []).data.contains '%' = false) :
    ∀ b ∈ utf8Encode s, alwaysSafeByte b = true := by
  intro b hb
  by_cases hsafe : alwaysSafeByte b = true
  · exact hsafe
  · exfalso
    have hsafe' : alwaysSafeByte b = false := by
      cases hx : alwaysSafeByte b
      · rfl
      · exact absurd hx hsafe
    have h37 : (37 : Nat) ∈ (utf8Encode s).flatMap (quoteByteBytes []) := by
      simp only [List.mem_flatMap]
      exact ⟨b, hb, by rw [quoteByte_nil_escaped hsafe']; exact List.mem_cons_self _ _⟩
    have hpc : '%' ∈ (pyQuote s []).data :=
      List.mem_map.mpr ⟨37, h37, by decide⟩
    have : (pyQuote s []).data.contains '%' = true := List.elem_iff.mpr hpc
    rw [this] at h
    exact absurd h (by decide)

/-- A character list whose UTF-8 bytes are all safe is ASCII, and its UTF-8
encoding is its code-point list. -/
theorem utf8_ascii_of_safe : ∀ cs : List Char,
    (∀ b ∈ cs.flatMap (fun c => utf8EncodeNat c.toNat), alwaysSafeByte b = true) →
    cs.flatMap (fun c => utf8EncodeNat c.toNat) = cs.map Char.toNat
  | [], _ => rfl
  | c :: cs, h => by
    have hhead : ∀ b ∈ utf8EncodeNat c.toNat, alwaysSafeByte b = true := fun b hb =>
      h b (by simp only [List.flatMap_cons, List.mem_append]; exact Or.inl hb)
    have hc : c.toNat < 128 := by
      by_contra hc
      unfold utf8EncodeNat at hhead
      rw [if_neg hc] at hhead
      by_cases h2 : c.toNat < 2048
      · rw [if_pos h2] at hhead
        have := alwaysSafe_lt_128 (hhead _ (List.mem_cons_self _ _))
        omega
      · by_cases h3 : c.toNat < 65536
        · rw [if_neg h2, if_pos h3] at hhead
          have := alwaysSafe_lt_128 (hhead _ (List.mem_cons_self _ _))
          omega
        · rw [if_neg h2, if_neg h3] at hhead
          have := alwaysSafe_lt_128 (hhead _ (List.mem_cons_self _ _))
          omega
    simp only [List.flatMap_cons, List.map_cons]
    rw [show utf8EncodeNat c.toNat = [c.toNat] from by unfold utf8EncodeNat; rw [if_pos hc]]
    rw [utf8_ascii_of_safe cs (fun b hb =>
      h b (by simp only [List.flatMap_cons, List.mem_append]; exact Or.inr hb))]
    rfl

/-- When the quotation of s has no percent sign, it is s itself. -/
theorem quote_no_escape {s : String}
    (h : (pyQuote s []).data.contains '%' = false) : pyQuote s [] = s := by
  have hsafe := quote_all_safe_of_no_pct h
  have h1 : (utf8Encode s).flatMap (quoteByteBytes []) = utf8Encode s :=
    flatMap_quote_safe hsafe
  have h2 : utf8Encode s = s.data.map Char.toNat := utf8_ascii_of_safe s.data hsafe
  show String.mk (((utf8Encode s).flatMap (quoteByteBytes [])).map Char.ofNat) = s
  rw [h1, h2, List.map_map]
  have hcongr : ∀ c ∈ s.data, (Char.ofNat ∘ Char.toNat) c = id c :=
    fun c _ => charOfNat_toNat c
  rw [List.map_congr_left hcongr, List.map_id]

/-- takeWhile keeps a list all of whose elements satisfy the predicate. -/
theorem takeWhile_all {p : α → Bool} : ∀ {l : List α}, (∀ a ∈ l, p a = true) →
    l.takeWhile p = l
  | [], _ => rfl
  | a :: l, h => by
    rw [List.takeWhile_cons_of_pos (h a (List.mem_cons_self _ _))]
    rw [takeWhile_all (fun x hx => h x (List.mem_cons_of_mem _ hx))]

/-- dropWhile drops a list all of whose elements satisfy the predicate. -/
theorem dropWhile_all {p : α → Bool} : ∀ {l : List α}, (∀ a ∈ l, p a = true) →
    l.dropWhile p = []
  | [], _ => rfl
  | a :: l, h => by
    rw [List.dropWhile_cons_of_pos (h a (List.mem_cons_self _ _))]
    exact dropWhile_all (fun x hx => h x (List.mem_cons_of_mem _ hx))

/-- On a nonempty all-ASCII string, unquote is percent-decode plus UTF-8
decode of the single run. -/
theorem unquoteRuns_ascii {cs : List Char} (hne : cs ≠ [])
    (hall : ∀ c ∈ cs, isAsciiChar c = true) :
    unquoteRuns cs = utf8DecodeAux (unquoteToBytes (cs.map Char.toNat)) := by
  cases cs with
  | nil => exact absurd rfl hne
  | cons c cs' =>
    have hc := hall c (List.mem_cons_self _ _)
    simp only [unquoteRuns]
    rw [List.takeWhile_cons_of_neg (by simp [hc]), List.dropWhile_cons_of_neg (by simp [hc])]
    rw [takeWhile_all hall, dropWhile_all hall]
    simp only [unquoteRuns]
    simp only [List.nil_append, List.append_nil]

/-- Every character of a quotation is ASCII. -/
theorem pyQuote_chars_ascii (s : String) :
    ∀ c ∈ (pyQuote s []).data, isAsciiChar c = true := by
  intro c hc
  have hc' : c ∈ ((utf8Encode s).flatMap (quoteByteBytes [])).map Char.ofNat := hc
  simp only [List.mem_map] at hc'
  obtain ⟨x, hx, rfl⟩ := hc'
  exact isAscii_ofNat (quote_bytes_lt_128 (fun b hb => utf8Encode_lt_256 hb) x hx)

/-- The code points of a quotation are its quoted bytes. -/
theorem pyQuote_map_toNat (s : String) :
    (pyQuote s []).data.map Char.toNat = (utf8Encode s).flatMap (quoteByteBytes []) := by
  show (((utf8Encode s).flatMap (quoteByteBytes [])).map Char.ofNat).map Char.toNat = _
  exact map_toNat_ofNat (quote_bytes_lt_128 (fun b hb => utf8Encode_lt_256 hb))

/-- urllib.parse.unquote inverts urllib.parse.quote with no safe characters
on every string. -/
theorem pyUnquote_pyQuote (s : String) : pyUnquote (pyQuote s []) = s := by
  by_cases h : (pyQuote s []).data.contains '%' = false
  · unfold pyUnquote
    rw [if_pos h]
    exact quote_no_escape h
  · unfold pyUnquote
    rw [if_neg h]
    have hne : (pyQuote s []).data ≠ [] := by
      intro h0
      apply h
      rw [h0]
      rfl
    rw [unquoteRuns_ascii hne (pyQuote_chars_ascii s), pyQuote_map_toNat,
      unquote_quote_bytes (fun b hb => utf8Encode_lt_256 hb), utf8decode_encode]

/-- C7: the URL encode and decode transforms round-trip: for every input
string, url_all succeeds and url_decode of its output returns the original
string exactly. -/
theorem spec_c7_url_roundtrip (p : PyPrims) (s : String) :
    ∃ y, applyT p "url_all" s = some (Except.ok y) ∧
      applyT p "url_decode" y = some (Except.ok s) := by
  refine ⟨pyQuote s [], ?_, ?_⟩
  · unfold applyT
    rw [TRANSFORMS_eq]
    rfl
  · unfold applyT
    rw [TRANSFORMS_eq]
    show some (pyTry (pyQuote s []) (Except.ok (pyUnquote (pyQuote s []))))
      = some (Except.ok s)
    rw [pyUnquote_pyQuote]
    rfl
